import Mathlib

/-!
# Verification of plenario's filter translation and sensor aggregation

Shallow embedding of the core of `datamade/plenario`:

* `plenario/api/sensor.py` — `make_query`, the generic filter-query
  translator (field/operator parsing, duck-typed operator dispatch,
  geospatial normalisation of `within` operands);
* `plenario/sensor_network/api/sensor_aggregate_functions.py` — the
  time-bucketed aggregation engine (`_generate_datetime_range`,
  `_zero_out_datetime`, `_generate_aggregate_selects`, `_valid_columns`,
  `_apply_aggregates`, `_format_aggregates`, `aggregate`).

Pure functions of the source are translated into computable Lean
functions; the storage layer (SQLAlchemy session, Redshift engine) is
modelled by passing the data it would return (node records, table rows)
as explicit arguments, and the grouped aggregate query is given the usual
GROUP BY semantics over those rows.
-/

namespace Plenario

/-! ## Python string primitives used by the translated code -/

/-- One step of Python `str.split` with a one-character separator:
scan the characters, accumulating the current piece in reversed order in
`acc`.  Mirrors CPython semantics: splitting the empty string yields
`[""]`, and `n` separator occurrences yield `n + 1` pieces. -/
def splitCharAux (sep : Char) : List Char → List Char → List (List Char)
  | [], acc => [acc.reverse]
  | c :: rest, acc =>
    if c = sep then acc.reverse :: splitCharAux sep rest []
    else splitCharAux sep rest (c :: acc)

/-- Python `s.split(sep)` for a one-character separator `sep`. -/
def pySplitChar (sep : Char) (s : String) : List String :=
  (splitCharAux sep s.data []).map (fun cs => String.mk cs)

/-- Python `s.split("__")` (used by `make_query` on parameter keys):
scan left to right, breaking at each non-overlapping occurrence of two
consecutive underscores. -/
def splitDunderAux : List Char → List Char → List (List Char)
  | [], acc => [acc.reverse]
  | '_' :: '_' :: rest, acc => acc.reverse :: splitDunderAux rest []
  | c :: rest, acc => splitDunderAux rest (c :: acc)

/-- Python `s.split("__")`. -/
def pySplitDunder (s : String) : List String :=
  (splitDunderAux s.data []).map (fun cs => String.mk cs)

/-- Python `s.startswith(p)`. -/
def pyStartsWith (s p : String) : Bool :=
  p.data.isPrefixOf s.data

/-- Python `s.endswith(p)`. -/
def pyEndsWith (s p : String) : Bool :=
  p.data.reverse.isPrefixOf s.data.reverse

/-- Python `"{!r}".format(s)` for the strings interpolated into
make_query error messages: wraps the text in single quotes (none of the
interpolated values need escaping). -/
def pyRepr (s : String) : String :=
  let q := String.mk [Char.ofNat 39]
  q ++ s ++ q

/-! ## Geometry model (sensor.py `within` branch)

`make_query` inspects the parsed GeoJSON payload only as far as: which of
the three payload shapes it is, whether the resolved geometry's `type` is
`"LineString"`, and the coordinates handed to the external shapely
centroid/buffer operations. -/

/-- A 2-d coordinate (longitude `x`, latitude `y`). -/
structure Pt where
  x : ℚ
  y : ℚ
  deriving DecidableEq

/-- Data carried by a polygon: an explicit ring, or the polygon produced
by the external shapely buffer operation on a line, recorded together
with the buffer distance (shapely guarantees that buffering a LineString
by a positive distance yields a Polygon). -/
inductive PolyData where
  | ring (pts : List Pt)
  | buffered (src : List Pt) (dist : ℚ)
  deriving DecidableEq

/-- GeoJSON geometry, as far as make_query distinguishes it. -/
inductive Geom where
  | lineString (pts : List Pt)
  | polygon (d : PolyData)
  | point (p : Pt)
  deriving DecidableEq

/-- The three accepted GeoJSON payload shapes (sensor.py lines 281-286):
a FeatureCollection (`features` key present, first feature used), a
Feature (`geometry` key present), or a bare geometry. -/
inductive GeoPayload where
  | featureCollection (first : Geom) (rest : List Geom)
  | feature (g : Geom)
  | bare (g : Geom)
  deriving DecidableEq

/-- sensor.py lines 281-286: pick the geometry out of the payload. -/
def resolveGeom : GeoPayload → Geom
  | .featureCollection g _ => g
  | .feature g => g
  | .bare g => g

/-- Latitude of the centroid of a line, as queried by
`shape.centroid.y`.  The external shapely centroid is length-weighted
along the segments; the model uses the vertex mean.  The only fact any
claim uses about this value is that it is the latitude handed to the
buffer-size computation, whose north-south component does not depend on
it. -/
def centroidLat (pts : List Pt) : ℚ :=
  if pts.length = 0 then 0 else (pts.map Pt.y).sum / pts.length

/-- Mean circumference of the earth in meters (model constant). -/
def earthCircumference : ℚ := 40075000

/-- Modelled from the spec: `plenario.utils.helpers.get_size_in_degrees`
is imported by sensor.py but its module is not under src/.  Per spec
section 4.3 it converts a physical distance in meters into an equivalent
angular distance at a given latitude, accounting for latitude-dependent
degree-to-meter scaling.  The caller destructures the result as `x, y`:
one degree along a meridian has a fixed physical length, so the
north-south component `y` is latitude-independent, while the east-west
component `x` grows as the inverse cosine of the latitude; the cosine is
modelled by the rational surrogate `1 - (lat/90)^2`, which like the real
cosine equals 1 at the equator and vanishes at the poles. -/
def getSizeInDegrees (meters lat : ℚ) : ℚ × ℚ :=
  let degreesPerMeter : ℚ := 360 / earthCircumference
  let base := meters * degreesPerMeter
  (base / (1 - (lat / 90) ^ 2), base)

/-- The external shapely buffer operation on a LineString: the result is
a Polygon, recorded with its generating data. -/
def bufferLine (pts : List Pt) (dist : ℚ) : Geom :=
  .polygon (.buffered pts dist)

/-- The GeoJSON document handed to `ST_GeomFromGeoJSON`: a geometry plus
the `crs` member that make_query attaches (sensor.py line 295). -/
structure GeoOut where
  geom : Geom
  crs : String
  deriving DecidableEq

/-- sensor.py lines 279-295: resolve the payload shape, replace a
LineString by the polygon obtained by buffering it by the north-south
angular size of 100 meters at its centroid latitude, and attach the
EPSG:4326 coordinate reference system. -/
def normalizeWithin (g : GeoPayload) : GeoOut :=
  let val := resolveGeom g
  let val2 :=
    match val with
    | .lineString pts =>
        let lat := centroidLat pts
        let xy := getSizeInDegrees 100 lat
        bufferLine pts xy.2
    | v => v
  ⟨val2, "EPSG:4326"⟩

/-! ## The filter translator `make_query` (sensor.py lines 236-321) -/

/-- A translated predicate clause.  `cmp` records the column attribute
resolved by the duck-typed dispatch (for example a rich-comparison
dunder) and the operand; `none` as operand stands for the SQL NULL
sentinel substituted for the literal string "null". -/
inductive Clause where
  | inList (field : String) (vals : List String)
  | stWithin (field : String) (payload : GeoOut)
  | timeOfDayGe (field : String) (v : String)
  | timeOfDayLe (field : String) (v : String)
  | cmp (field : String) (attr : String) (v : Option String)
  deriving DecidableEq

/-- Attribute names available on a SQLAlchemy Column object that the
duck-typed dispatch of make_query line 307 can find with `hasattr`
(external library API: the rich-comparison dunders plus the
ColumnOperators methods). -/
def columnAttrs : List String :=
  ["__eq__", "__ne__", "__lt__", "__le__", "__gt__", "__ge__",
   "like", "ilike", "notlike", "notilike", "in_", "notin_",
   "is_", "isnot", "startswith", "endswith", "contains", "between",
   "concat", "match", "desc", "asc", "distinct", "op", "label", "cast",
   "any_", "all_", "collate"]

/-- sensor.py line 307: probe `op`, `op_` and `__op__` in order and keep
the first form the column has an attribute for; `none` models the
IndexError branch (no form matched). -/
def resolveAttr (op : String) : Option String :=
  (([op, op ++ "_", "__" ++ op ++ "__"]).filter
    (fun a => columnAttrs.contains a)).head?

/-- A raw query-parameter value.  HTTP values are strings; the `within`
branch runs the external `json.loads` on its operand, so the embedding
carries the already-parsed payload in that case, and `str` for operands
that do not parse into one of the accepted payload shapes. -/
inductive PVal where
  | str (v : String)
  | geo (g : GeoPayload)
  deriving DecidableEq

/-- The value a non-`within` branch reads from the parameter (always a
string in an HTTP request). -/
def pvAsStr : PVal → String
  | .str v => v
  | .geo _ => ""

/-- `raw_query_params.get(key)`: first value stored under the key. -/
def lookupParam (params : List (String × PVal)) (k : String) :
    Option PVal :=
  (params.find? (fun p => p.1 = k)).map Prod.snd

/-- The observable state of make_query: the `valid_query` flag, the
translated clause list (a `none` entry models the Python `None` appended
by the `time_of_day` fallthrough), the `resp` meta message, the HTTP
status code, and a marker for an uncaught exception (malformed `within`
operand, whose `json.loads` failure propagates out of make_query). -/
structure MQState where
  valid : Bool
  clauses : List (Option Clause)
  message : String
  statusCode : Nat
  crashed : Bool
  deriving DecidableEq

/-- Initial state (sensor.py lines 239-248). -/
def initState : MQState :=
  { valid := true, clauses := [], message := "", statusCode := 200,
    crashed := false }

/-- sensor.py lines 261-265: `key.split('__')` unpacked into exactly two
names; the ValueError fallback keeps the whole key as the field with the
default equality operator. -/
def parseFieldOp (key : String) : String × String :=
  match pySplitDunder key with
  | [f, op] => (f, op)
  | _ => (key, "eq")

/-- One iteration of the make_query parameter loop (sensor.py lines
259-319).  Returns the updated state and whether the loop breaks (it
breaks on an unresolvable operator, and an uncaught exception also stops
it). -/
def processParam (tableKeys : List String)
    (params : List (String × PVal)) (st : MQState) (key : String) :
    MQState × Bool :=
  let fo := parseFieldOp key
  let field := fo.1
  let op := fo.2
  let qv := (lookupParam params key).getD (.str "")
  if !(tableKeys.contains field) then
    ({ st with message := pyRepr field ++ " is not a valid field name",
               statusCode := 400, valid := false }, false)
  else if op = "in" then
    ({ st with clauses :=
        st.clauses ++ [some (.inList field (pySplitChar ',' (pvAsStr qv)))] },
     false)
  else if op = "within" then
    match qv with
    | .geo g =>
        ({ st with clauses :=
            st.clauses ++ [some (.stWithin field (normalizeWithin g))] },
         false)
    | .str _ =>
        ({ st with crashed := true }, true)
  else if pyStartsWith op "time_of_day" then
    let q : Option Clause :=
      if pyEndsWith op "ge" then some (.timeOfDayGe field (pvAsStr qv))
      else if pyEndsWith op "le" then some (.timeOfDayLe field (pvAsStr qv))
      else none
    ({ st with clauses := st.clauses ++ [q] }, false)
  else
    match resolveAttr op with
    | none =>
        ({ st with
            message := pyRepr op ++ " is not a valid query operator",
            statusCode := 400, valid := false }, true)
    | some attr =>
        let v := pvAsStr qv
        let v2 : Option String := if v = "null" then none else some v
        ({ st with clauses :=
            st.clauses ++ [some (.cmp field attr v2)] }, false)

/-- The make_query parameter loop, with early exit on break. -/
def mqLoop (tableKeys : List String) (params : List (String × PVal)) :
    List String → MQState → MQState
  | [], st => st
  | k :: rest, st =>
    let r := processParam tableKeys params st k
    if r.2 then r.1 else mqLoop tableKeys params rest r.1

/-- sensor.py lines 236-321: strip the reserved keys (`offset`, `limit`,
`order_by`, `weather`; Python `list.remove` drops the first occurrence)
and scan the remaining parameter keys in order. -/
def makeQuery (tableKeys : List String)
    (params : List (String × PVal)) : MQState :=
  let argsKeys :=
    ((((params.map Prod.fst).erase "offset").erase "limit").erase
        "order_by").erase "weather"
  mqLoop tableKeys params argsKeys initState

/-! ## Datetimes (sensor_aggregate_functions.py)

Python datetime objects, restricted to naive values: both endpoints are
stripped to naive (`replace(tzinfo=None)`) on entry to
`_generate_datetime_range`, and `date_trunc` buckets are compared as
naive values. -/

/-- A (naive) Python datetime. -/
structure DateTime where
  year : Nat
  month : Nat
  day : Nat
  hour : Nat
  minute : Nat
  second : Nat
  microsecond : Nat
  deriving DecidableEq

/-- Proleptic-Gregorian leap-year test. -/
def isLeap (y : Nat) : Bool :=
  (y % 4 = 0 && y % 100 ≠ 0) || y % 400 = 0

/-- Number of days in a month. -/
def daysInMonth (y m : Nat) : Nat :=
  if m = 2 then (if isLeap y then 29 else 28)
  else if m = 4 ∨ m = 6 ∨ m = 9 ∨ m = 11 then 30
  else 31

/-- The invariant every constructed Python datetime satisfies (the
constructor and `replace` validate it; `MINYEAR` is 1; the `MAXYEAR`
bound is not modelled, as no claim concerns the year-10000 overflow). -/
def DateTime.Valid (dt : DateTime) : Prop :=
  1 ≤ dt.year ∧ 1 ≤ dt.month ∧ dt.month ≤ 12 ∧ 1 ≤ dt.day ∧
    dt.day ≤ daysInMonth dt.year dt.month ∧ dt.hour ≤ 23 ∧
    dt.minute ≤ 59 ∧ dt.second ≤ 59 ∧ dt.microsecond ≤ 999999

instance (dt : DateTime) : Decidable dt.Valid := by
  unfold DateTime.Valid
  exact inferInstance

/-- The granularity units accepted by both `_zero_out_datetime` (its
`units` list, in order) and `_generate_datetime_range` (sub-month units
are `timedelta` keywords; `month` and `year` raise TypeError there and
fall back to `relativedelta`). -/
inductive TimeUnit where
  | year
  | month
  | day
  | hour
  | minute
  | second
  | microsecond
  deriving DecidableEq

/-- `dt + timedelta(days=1)` on a valid datetime: increment the day with
calendar carrying. -/
def addDays1 (dt : DateTime) : DateTime :=
  if dt.day + 1 ≤ daysInMonth dt.year dt.month then
    { dt with day := dt.day + 1 }
  else if dt.month + 1 ≤ 12 then
    { dt with month := dt.month + 1, day := 1 }
  else
    { dt with year := dt.year + 1, month := 1, day := 1 }

/-- `dt + timedelta(hours=1)`. -/
def addHours1 (dt : DateTime) : DateTime :=
  if dt.hour + 1 ≤ 23 then { dt with hour := dt.hour + 1 }
  else addDays1 { dt with hour := 0 }

/-- `dt + timedelta(minutes=1)`. -/
def addMinutes1 (dt : DateTime) : DateTime :=
  if dt.minute + 1 ≤ 59 then { dt with minute := dt.minute + 1 }
  else addHours1 { dt with minute := 0 }

/-- `dt + timedelta(seconds=1)`. -/
def addSeconds1 (dt : DateTime) : DateTime :=
  if dt.second + 1 ≤ 59 then { dt with second := dt.second + 1 }
  else addMinutes1 { dt with second := 0 }

/-- `dt + timedelta(microseconds=1)`. -/
def addMicros1 (dt : DateTime) : DateTime :=
  if dt.microsecond + 1 ≤ 999999 then
    { dt with microsecond := dt.microsecond + 1 }
  else addSeconds1 { dt with microsecond := 0 }

/-- Clamp the day to the length of the current month, as dateutil's
relativedelta does after shifting month or year. -/
def clampDay (dt : DateTime) : DateTime :=
  { dt with day := min dt.day (daysInMonth dt.year dt.month) }

/-- `dt + relativedelta(months=1)`. -/
def addMonths1 (dt : DateTime) : DateTime :=
  if dt.month + 1 ≤ 12 then clampDay { dt with month := dt.month + 1 }
  else clampDay { dt with year := dt.year + 1, month := 1 }

/-- `dt + relativedelta(years=1)`. -/
def addYears1 (dt : DateTime) : DateTime :=
  clampDay { dt with year := dt.year + 1 }

/-- One advance of the `_generate_datetime_range` loop:
`current_datetime += timedelta(**{unit + "s": 1})`, falling back to
`relativedelta` on the TypeError raised for month and year. -/
def addOne : TimeUnit → DateTime → DateTime
  | .year => addYears1
  | .month => addMonths1
  | .day => addDays1
  | .hour => addHours1
  | .minute => addMinutes1
  | .second => addSeconds1
  | .microsecond => addMicros1

/-- Monotone packing of a valid datetime's fields into a natural number
(strict field bounds 13/32/24/60/60/1000000 make it order-preserving for
the lexicographic comparison on valid datetimes).  Used to bound the
number of loop iterations of `_generate_datetime_range`. -/
def rank (dt : DateTime) : Nat :=
  dt.microsecond +
    1000000 * (dt.second + 60 * (dt.minute + 60 * (dt.hour +
      24 * (dt.day + 32 * (dt.month + 13 * dt.year)))))

/-- Python datetime comparison `a <= b`: lexicographic on the fields. -/
def lexLeB (a b : DateTime) : Bool :=
  if a.year < b.year then true
  else if b.year < a.year then false
  else if a.month < b.month then true
  else if b.month < a.month then false
  else if a.day < b.day then true
  else if b.day < a.day then false
  else if a.hour < b.hour then true
  else if b.hour < a.hour then false
  else if a.minute < b.minute then true
  else if b.minute < a.minute then false
  else if a.second < b.second then true
  else if b.second < a.second then false
  else decide (a.microsecond ≤ b.microsecond)

/-- Python datetime comparison `a < b`: lexicographic on the fields. -/
def lexLtB (a b : DateTime) : Bool :=
  if a.year < b.year then true
  else if b.year < a.year then false
  else if a.month < b.month then true
  else if b.month < a.month then false
  else if a.day < b.day then true
  else if b.day < a.day then false
  else if a.hour < b.hour then true
  else if b.hour < a.hour then false
  else if a.minute < b.minute then true
  else if b.minute < a.minute then false
  else if a.second < b.second then true
  else if b.second < a.second then false
  else decide (a.microsecond < b.microsecond)

/-- The `while current_datetime <= end_datetime` loop of
`_generate_datetime_range`, with an explicit bound on the number of
iterations; `generateDatetimeRange` instantiates the bound so that (per
`genRangeAux_spec`) it is never reached on valid inputs, making the
embedding compute exactly the source loop. -/
def genRangeAux (e : DateTime) (u : TimeUnit) :
    Nat → DateTime → List DateTime
  | 0, _ => []
  | fuel + 1, cur =>
    if lexLeB cur e then cur :: genRangeAux e u fuel (addOne u cur)
    else []

/-- `_generate_datetime_range(start, end, unit)` (tzinfo already
stripped: the model carries naive datetimes only). -/
def generateDatetimeRange (s e : DateTime) (u : TimeUnit) :
    List DateTime :=
  genRangeAux e u (rank e + 1 - rank s) s

/-- The ordered `units` list of `_zero_out_datetime`. -/
def unitsList : List TimeUnit :=
  [.year, .month, .day, .hour, .minute, .second, .microsecond]

/-- `units.index(unit)`. -/
def unitIndex : TimeUnit → Nat
  | .year => 0
  | .month => 1
  | .day => 2
  | .hour => 3
  | .minute => 4
  | .second => 5
  | .microsecond => 6

/-- Field accessor by unit. -/
def getField (dt : DateTime) : TimeUnit → Nat
  | .year => dt.year
  | .month => dt.month
  | .day => dt.day
  | .hour => dt.hour
  | .minute => dt.minute
  | .second => dt.second
  | .microsecond => dt.microsecond

/-- `dt.replace(**{unit: 0})` before validation: set one field to 0. -/
def setFieldZero (dt : DateTime) : TimeUnit → DateTime
  | .year => { dt with year := 0 }
  | .month => { dt with month := 0 }
  | .day => { dt with day := 0 }
  | .hour => { dt with hour := 0 }
  | .minute => { dt with minute := 0 }
  | .second => { dt with second := 0 }
  | .microsecond => { dt with microsecond := 0 }

/-- The `try: dt = dt.replace(**{zeroing_unit: 0}) / except ValueError:
pass` body of `_zero_out_datetime`: Python's `replace` validates the
resulting datetime and raises ValueError when the zeroed field leaves
its legal range (month and day cannot be 0), in which case `dt` is kept
unchanged. -/
def tryZero (dt : DateTime) (u : TimeUnit) : DateTime :=
  let d2 := setFieldZero dt u
  if d2.Valid then d2 else dt

/-- `_zero_out_datetime(dt, unit)`: fold the zeroing attempt over every
unit more granular than `unit`. -/
def zeroOutDatetime (dt : DateTime) (u : TimeUnit) : DateTime :=
  (unitsList.drop (unitIndex u + 1)).foldl tryZero dt

/-! ## The aggregation engine (sensor_aggregate_functions.py) -/

/-- PostgreSQL `date_trunc(unit, timestamp)`: reset every component more
granular than the unit to its minimal value. -/
def dateTrunc : TimeUnit → DateTime → DateTime
  | .year, dt => ⟨dt.year, 1, 1, 0, 0, 0, 0⟩
  | .month, dt => ⟨dt.year, dt.month, 1, 0, 0, 0, 0⟩
  | .day, dt => ⟨dt.year, dt.month, dt.day, 0, 0, 0, 0⟩
  | .hour, dt => ⟨dt.year, dt.month, dt.day, dt.hour, 0, 0, 0⟩
  | .minute, dt => ⟨dt.year, dt.month, dt.day, dt.hour, dt.minute, 0, 0⟩
  | .second, dt =>
      ⟨dt.year, dt.month, dt.day, dt.hour, dt.minute, dt.second, 0⟩
  | .microsecond, dt => dt

/-- Decimal digit character. -/
def digitChar (n : Nat) : Char :=
  match n with
  | 0 => '0'
  | 1 => '1'
  | 2 => '2'
  | 3 => '3'
  | 4 => '4'
  | 5 => '5'
  | 6 => '6'
  | 7 => '7'
  | 8 => '8'
  | _ => '9'

/-- Two-digit zero-padded rendering. -/
def pad2 (n : Nat) : List Char :=
  [digitChar (n / 10 % 10), digitChar (n % 10)]

/-- Four-digit zero-padded rendering. -/
def pad4 (n : Nat) : List Char :=
  [digitChar (n / 1000 % 10), digitChar (n / 100 % 10),
   digitChar (n / 10 % 10), digitChar (n % 10)]

/-- Six-digit zero-padded rendering. -/
def pad6 (n : Nat) : List Char :=
  [digitChar (n / 100000 % 10), digitChar (n / 10000 % 10),
   digitChar (n / 1000 % 10), digitChar (n / 100 % 10),
   digitChar (n / 10 % 10), digitChar (n % 10)]

/-- The characters of Python `datetime.isoformat()` on a naive datetime:
no timezone offset is rendered, and the microsecond part appears only
when nonzero. -/
def isoChars (dt : DateTime) : List Char :=
  pad4 dt.year ++ '-' :: pad2 dt.month ++ '-' :: pad2 dt.day ++
    'T' :: pad2 dt.hour ++ ':' :: pad2 dt.minute ++
    ':' :: pad2 dt.second ++
    (if dt.microsecond = 0 then [] else '.' :: pad6 dt.microsecond)

/-- Python `dt.isoformat()` for a naive datetime. -/
def pyIsoformat (dt : DateTime) : String :=
  String.mk (isoChars dt)

/-- The placeholder's `time_bucket` value,
`datetimes[i].isoformat().split("+")[0]`
(sensor_aggregate_functions.py line 33): the isoformat string with any
timezone suffix cut off. -/
def placeholderLabel (dt : DateTime) : String :=
  (pySplitChar '+' (pyIsoformat dt)).headD ""

/-- A row of a feature-of-interest observation table, as far as the
grouped aggregate query reads it: its `datetime` and its numeric column
values (`none` modelling SQL NULL). -/
structure Row where
  dt : DateTime
  vals : List (String × Option ℚ)
  deriving DecidableEq

/-- The value of a row in a named column. -/
def Row.getVal (r : Row) (c : String) : Option ℚ :=
  (r.vals.lookup c).getD none

/-- A record of the aggregate list built by `_apply_aggregates`: either
the placeholder synthesized for an empty window (a dict with only the
`time_bucket` and `count` keys, lines 31-35), or a result row of the
grouped query (the `time_bucket` plus, for every selected column, the
aggregated value and the count of non-null values — the `col` and
`col_count` select labels). -/
inductive Rec where
  | placeholder (label : String) (count : Nat)
  | row (bucket : DateTime) (stats : List (String × Option ℚ × Nat))
  deriving DecidableEq

/-- Deduplication keeping first occurrences, for the GROUP BY keys. -/
def firstDedupAux : List DateTime → List DateTime → List DateTime
  | [], _ => []
  | a :: rest, seen =>
    if a ∈ seen then firstDedupAux rest seen
    else a :: firstDedupAux rest (a :: seen)

/-- Deduplication keeping first occurrences. -/
def firstDedup (l : List DateTime) : List DateTime :=
  firstDedupAux l []

/-- Membership of a row timestamp in the half-open window `[lo, hi)`
(the WHERE clause of lines 25-28). -/
def inWindowB (lo hi d : DateTime) : Bool :=
  lexLeB lo d && lexLtB d hi

/-- The grouped select of `_apply_aggregates` (lines 25-29) restricted
to one window: rows with `lo <= datetime < hi`, grouped by
`date_trunc(agg_unit, datetime)` (the `time_bucket` label); each group
yields one result row carrying, for every selected column, the
aggregate function applied to the column's non-null values and the
count of its non-null values.  Groups are listed in first-occurrence
order (SQL leaves the order unspecified; no claim depends on it). -/
def groupedQuery (rows : List Row) (cols : List String)
    (aggF : List ℚ → Option ℚ) (u : TimeUnit) (lo hi : DateTime) :
    List Rec :=
  let inW := rows.filter (fun r => inWindowB lo hi r.dt)
  let buckets := firstDedup (inW.map (fun r => dateTrunc u r.dt))
  buckets.map (fun b =>
    let grp := inW.filter (fun r => dateTrunc u r.dt == b)
    Rec.row b (cols.map (fun c =>
      let vs := (grp.map (fun r => r.getVal c)).filterMap id
      (c, aggF vs, vs.length))))

/-- The body of the `_apply_aggregates` loop for one boundary pair:
`payload if payload else empty_placeholder`, the placeholder carrying
the window's left edge rendered without timezone suffix and a zero
count. -/
def windowRecs (rows : List Row) (cols : List String)
    (aggF : List ℚ → Option ℚ) (u : TimeUnit) (lo hi : DateTime) :
    List Rec :=
  let payload := groupedQuery rows cols aggF u lo hi
  if payload.isEmpty then [Rec.placeholder (placeholderLabel lo) 0]
  else payload

/-- `_apply_aggregates(table, selects, datetimes)`: one grouped query
per consecutive boundary pair, results concatenated.  The loop over
`range(0, len(datetimes) - 1)` is rendered as the zip of the boundary
list with its tail. -/
def applyAggregates (rows : List Row) (cols : List String)
    (aggF : List ℚ → Option ℚ) (u : TimeUnit) (dts : List DateTime) :
    List Rec :=
  ((dts.zip dts.tail).map
    (fun w => windowRecs rows cols aggF u w.1 w.2)).flatten

/-- The number of GROUP BY classes of one window. -/
def numGroups (rows : List Row) (u : TimeUnit) (lo hi : DateTime) :
    Nat :=
  (firstDedup ((rows.filter (fun r => inWindowB lo hi r.dt)).map
    (fun r => dateTrunc u r.dt))).length

/-- A reflected table column: its name and the rendering of its SQL
type. -/
structure Col where
  name : String
  typ : String
  deriving DecidableEq

/-- The identifier/meta columns always excluded from aggregation
(`_generate_aggregate_selects` line 80). -/
def metaColumns : List String :=
  ["node_id", "datetime", "meta_id", "sensor"]

/-- `_generate_aggregate_selects` (lines 68-91), reduced to the data the
grouped-query model consumes: the names of the selected target columns
— not a meta column, requested, and of floating-point type
(`str(col.type).split("(")[0] == "DOUBLE PRECISION"`).  For each such
column the source emits the aggregate select and the `_count` select
that `groupedQuery` renders per column. -/
def generateAggregateSelects (tableCols : List Col)
    (targetColumns : List String) : List String :=
  (tableCols.filter (fun c =>
    !(metaColumns.contains c.name) && targetColumns.contains c.name &&
      ((pySplitChar '(' c.typ).headD "" == "DOUBLE PRECISION"))).map
    Col.name

/-- One output object of `_format_aggregates` (lines 42-65): the keys of
a record dispatched into the nested JSON — `time_bucket` and `count`
kept top-level, a key containing "count" nested as the count of its
column, any other key nested as the statistic under the aggregate's
label. -/
inductive OutEntry where
  | timeBucketStr (v : String)
  | timeBucketDt (v : DateTime)
  | countTop (v : Nat)
  | stat (col : String) (label : String) (v : Option ℚ)
  | statCount (col : String) (v : Nat)
  deriving DecidableEq

/-- Format one aggregate record (one iteration of the
`_format_aggregates` loop). -/
def formatOne (aggLabel : String) : Rec → List OutEntry
  | .placeholder lbl c => [.timeBucketStr lbl, .countTop c]
  | .row b stats =>
      .timeBucketDt b ::
        (stats.map (fun s =>
          [OutEntry.stat s.1 aggLabel s.2.1,
           OutEntry.statCount s.1 s.2.2])).flatten

/-- `_format_aggregates`: one output object per aggregate record. -/
def formatAggregates (recs : List Rec) (aggLabel : String) :
    List (List OutEntry) :=
  recs.map (formatOne aggLabel)

/-! ## Column eligibility resolution (`_valid_columns`, `aggregate`) -/

/-- A sensor: its name and the values of its `observed_properties`
JSONB mapping (the dotted `feature.property` strings; the keys are
never read by this core). -/
structure Sensor where
  name : String
  observedProperties : List String
  deriving DecidableEq

/-- A node with its attached sensors, as returned by the external
session lookup `session.query(NodeMeta).filter(NodeMeta.id == node)`. -/
structure NodeRec where
  id : String
  sensors : List Sensor
  deriving DecidableEq

/-- Lookup in the target-feature-properties dict. -/
def lookupTFP (m : List (String × Option (List String))) (k : String) :
    Option (Option (List String)) :=
  (m.find? (fun p => p.1 == k)).map Prod.snd

/-- `if target_sensors: if sensor.name not in target_sensors: continue`
— the sensor passes the filter when no (truthy) filter was given or its
name is listed (Python truthiness: `None` and the empty list both skip
the filter). -/
def sensorPasses (targetSensors : Option (List String))
    (s : Sensor) : Bool :=
  match targetSensors with
  | none => true
  | some ts => if ts.isEmpty then true else ts.contains s.name

/-- Python-set insertion into the accumulated column set (modelled as a
duplicate-free list). -/
def addCol (cols : List String) (c : String) : List String :=
  if cols.contains c then cols else cols ++ [c]

/-- Python `s.lower()` (ASCII). -/
def pyLower (s : String) : String :=
  String.mk (s.data.map Char.toLower)

/-- The body of the inner loop of `_valid_columns` (lines 150-160) for
one observed-property value: split the dotted string, skip when its
feature is not requested or a given property filter excludes it,
otherwise add the lower-cased property name.  Python indexes
`val.split(".")[1]` unconditionally and would raise IndexError on a
dotless value; the model's out-of-range default never fires on the
dotted `feature.property` strings this data model stores. -/
def vcProp (tfp : List (String × Option (List String)))
    (cols : List String) (val : String) : List String :=
  let parts := pySplitChar '.' val
  let curFeature := parts.headD ""
  let curProperty := parts.getD 1 ""
  match lookupTFP tfp curFeature with
  | none => cols
  | some fprops =>
    match fprops with
    | none => addCol cols (pyLower curProperty)
    | some props =>
      if props.isEmpty then addCol cols (pyLower curProperty)
      else if props.contains curProperty then
        addCol cols (pyLower curProperty)
      else cols

/-- The body of the outer loop of `_valid_columns` for one sensor. -/
def vcSensor (targetSensors : Option (List String))
    (tfp : List (String × Option (List String)))
    (cols : List String) (s : Sensor) : List String :=
  if sensorPasses targetSensors s then
    s.observedProperties.foldl (vcProp tfp) cols
  else cols

/-- `_valid_columns(node, target_sensors, target_feature_properties)`
(lines 132-162). -/
def validColumns (node : NodeRec)
    (targetSensors : Option (List String))
    (tfp : List (String × Option (List String))) : List String :=
  node.sensors.foldl (vcSensor targetSensors tfp) []

/-- Replace or append an entry of the target-feature-properties dict. -/
def assocSet (m : List (String × Option (List String))) (k : String)
    (v : Option (List String)) : List (String × Option (List String)) :=
  if (m.find? (fun p => p.1 == k)).isSome then
    m.map (fun p => if p.1 == k then (p.1, v) else p)
  else m ++ [(k, v)]

/-- The target-feature-properties construction of `aggregate` (lines
210-216): a two-part `feature.property` entry appends the property
under its feature key (`setdefault(feature, []).append(f_property)`),
any other shape stores `None` under the whole string (the ValueError
fallback).  Appending after an earlier bare-feature entry would raise
AttributeError in Python (append on None); the model keeps the dict
unchanged there, a path no claim exercises. -/
def buildTFP (targetFeatures : List String) :
    List (String × Option (List String)) :=
  targetFeatures.foldl
    (fun m f =>
      match pySplitChar '.' f with
      | [a, b] =>
        match lookupTFP m a with
        | none => m ++ [(a, some [b])]
        | some (some l) => assocSet m a (some (l ++ [b]))
        | some none => m
      | _ => assocSet m f none)
    []

/-- `sensors.split(",") if sensors else None` (line 207). -/
def pySensorFilter (sensors : Option String) : Option (List String) :=
  match sensors with
  | none => none
  | some s => if s = "" then none else some (pySplitChar ',' s)

/-- The message of the ValueError raised by `aggregate` when no valid
columns remain (lines 221-224). -/
def contradictoryMsg : String :=
  "Your query returns no results. You have specified filters which " ++
    "are likely contradictory (for example filtering on a sensor " ++
    "which doesn\x27t have the feature you are aggregating for)"

/-- `aggregate(args, agg_label, agg_fn)` (lines 188-235).  The storage
collaborators are passed explicitly: the node record the session lookup
returns, the reflected observation table's columns, and the rows the
Redshift session would scan; `date_parse` of the two datetime
parameters is the external dateutil parser, so the model takes the
parsed datetimes.  The start is zeroed at the aggregation unit, the
end is left as given. -/
def aggregateModel (node : NodeRec) (tableCols : List Col)
    (rows : List Row) (feature : String) (startDt endDt : DateTime)
    (sensors : Option String) (aggUnit : TimeUnit) (aggLabel : String)
    (aggF : List ℚ → Option ℚ) :
    Except String (List (List OutEntry)) :=
  let start := zeroOutDatetime startDt aggUnit
  let targetFeatures := pySplitChar ',' feature
  let targetSensors := pySensorFilter sensors
  let tfp := buildTFP targetFeatures
  let validCols := validColumns node targetSensors tfp
  if validCols.isEmpty then Except.error contradictoryMsg
  else
    let sel := generateAggregateSelects tableCols validCols
    let dts := generateDatetimeRange start endDt aggUnit
    Except.ok (formatAggregates (applyAggregates rows sel aggF aggUnit dts)
      aggLabel)

/-! ## Theorems about make_query -/

/-- C3 (counterexample): the operator suffix `like` is not in the
enumerated vocabulary, yet make_query accepts it (the duck-typed
dispatch finds the column's `like` attribute), returning a valid result
with a translated clause instead of an InvalidOperator error. -/
theorem c3_like_operator_accepted_counterexample :
    makeQuery ["name"] [("name__like", PVal.str "foo")] =
      { valid := true,
        clauses := [some (.cmp "name" "like" (some "foo"))],
        message := "", statusCode := 200, crashed := false } ∧
    ("like" ∈ (["eq", "ne", "lt", "le", "gt", "ge", "in", "within",
        "time_of_day_ge", "time_of_day_le"] : List String)) = False := by
  constructor
  · decide
  · simp

/-- C3 (amended): a parameter whose operator suffix resolves to none of
the column attribute forms `op`, `op_`, `__op__` (and is not one of the
specially handled `in` / `within` / `time_of_day*` suffixes) marks the
result invalid and reports the message naming the offending operator;
suffixes outside the enumerated vocabulary that do match some column
attribute are accepted instead. -/
theorem c3_unresolvable_operator_invalid (tks : List String)
    (key field op v : String)
    (hsplit : pySplitDunder key = [field, op])
    (hfield : tks.contains field = true)
    (hin : op ≠ "in") (hwithin : op ≠ "within")
    (htod : pyStartsWith op "time_of_day" = false)
    (hattr : resolveAttr op = none)
    (h1 : key ≠ "offset") (h2 : key ≠ "limit")
    (h3 : key ≠ "order_by") (h4 : key ≠ "weather") :
    makeQuery tks [(key, PVal.str v)] =
      { valid := false, clauses := [],
        message := pyRepr op ++ " is not a valid query operator",
        statusCode := 400, crashed := false } := by
  have hp : parseFieldOp key = (field, op) := by
    simp [parseFieldOp, hsplit]
  have hmem : field ∈ tks := by simpa using hfield
  simp only [makeQuery, List.map, List.erase_cons, List.erase_nil,
    beq_iff_eq, h1, h2, h3, h4, if_false, if_neg]
  simp [mqLoop, processParam, hp, hmem, hin, hwithin, htod, hattr,
    initState]

/-- C3 (witness): instantiation of the amended theorem at the concrete
parameter `x__zzz=1` on a table with column `x`. -/
theorem c3_unresolvable_operator_invalid_witness :
    makeQuery ["x"] [("x__zzz", PVal.str "1")] =
      { valid := false, clauses := [],
        message := pyRepr "zzz" ++ " is not a valid query operator",
        statusCode := 400, crashed := false } :=
  c3_unresolvable_operator_invalid ["x"] "x__zzz" "x" "zzz" "1"
    (by decide) (by decide) (by decide) (by decide) (by decide)
    (by decide) (by decide) (by decide) (by decide) (by decide)

/-- C4 (counterexample): with an invalid field name first
(`bogus`) and an invalid operator later (`x__zzz`), the returned message
is the operator message — the later failure overwrote the earlier
field-name message, so the first field-name failure does not take
precedence. -/
theorem c4_operator_message_wins_counterexample :
    makeQuery ["x"] [("bogus", PVal.str "1"), ("x__zzz", PVal.str "2")] =
      { valid := false, clauses := [],
        message := pyRepr "zzz" ++ " is not a valid query operator",
        statusCode := 400, crashed := false } ∧
    pyRepr "zzz" ++ " is not a valid query operator" ≠
      pyRepr "bogus" ++ " is not a valid field name" := by
  constructor
  · decide
  · decide

/-- C4 (amended): every field/operator validation failure sets the
overall result to invalid; a field-name failure does not stop the scan
but each later failure overwrites the stored message, and an
unresolvable operator stops the scan, so when an invalid field name is
followed by an invalid operator the operator failure determines the
returned message. -/
theorem c4_last_failure_message_wins (tks : List String)
    (k1 k2 v1 v2 f2 op2 : String)
    (hf1 : tks.contains (parseFieldOp k1).1 = false)
    (hsplit2 : pySplitDunder k2 = [f2, op2])
    (hfield2 : tks.contains f2 = true)
    (hin2 : op2 ≠ "in") (hwithin2 : op2 ≠ "within")
    (htod2 : pyStartsWith op2 "time_of_day" = false)
    (hattr2 : resolveAttr op2 = none)
    (h1 : k1 ≠ "offset") (h2 : k1 ≠ "limit")
    (h3 : k1 ≠ "order_by") (h4 : k1 ≠ "weather")
    (h5 : k2 ≠ "offset") (h6 : k2 ≠ "limit")
    (h7 : k2 ≠ "order_by") (h8 : k2 ≠ "weather") :
    makeQuery tks [(k1, PVal.str v1), (k2, PVal.str v2)] =
      { valid := false, clauses := [],
        message := pyRepr op2 ++ " is not a valid query operator",
        statusCode := 400, crashed := false } := by
  have hp2 : parseFieldOp k2 = (f2, op2) := by
    simp [parseFieldOp, hsplit2]
  have hmem2 : f2 ∈ tks := by simpa using hfield2
  have hnmem1 : (parseFieldOp k1).1 ∉ tks := by simpa using hf1
  simp only [makeQuery, List.map, List.erase_cons, List.erase_nil,
    beq_iff_eq, h1, h2, h3, h4, h5, h6, h7, h8, if_false, if_neg]
  simp [mqLoop, processParam, hp2, hmem2, hnmem1, hin2, hwithin2,
    htod2, hattr2, initState]

/-- C4 (witness): instantiation of the amended theorem at the concrete
parameters `bogus=1, x__zzz=2` on a table with column `x`. -/
theorem c4_last_failure_message_wins_witness :
    makeQuery ["x"] [("bogus", PVal.str "1"), ("x__zzz", PVal.str "2")] =
      { valid := false, clauses := [],
        message := pyRepr "zzz" ++ " is not a valid query operator",
        statusCode := 400, crashed := false } :=
  c4_last_failure_message_wins ["x"] "bogus" "x__zzz" "1" "2" "x" "zzz"
    (by decide) (by decide) (by decide) (by decide) (by decide)
    (by decide) (by decide) (by decide) (by decide) (by decide)
    (by decide) (by decide) (by decide) (by decide) (by decide)

/-- C5 (counterexample): an `in` parameter with an empty operand yields a
membership clause over the singleton list containing the empty string
(Python `"".split(",") == [""]`), not over an empty set of values. -/
theorem c5_empty_in_operand_singleton_counterexample :
    makeQuery ["x"] [("x__in", PVal.str "")] =
      { valid := true, clauses := [some (.inList "x" [""])],
        message := "", statusCode := 200, crashed := false } ∧
    ([""] : List String) ≠ [] := by
  constructor
  · decide
  · decide

/-- C5 (amended): an `in` parameter with an empty operand succeeds
without error and produces a membership clause over the one-element set
containing the empty string (which matches rows whose value is the empty
string), because Python comma-splitting of the empty string yields
`[""]`. -/
theorem c5_in_empty_operand_clause (tks : List String)
    (key field : String)
    (hsplit : pySplitDunder key = [field, "in"])
    (hfield : tks.contains field = true)
    (h1 : key ≠ "offset") (h2 : key ≠ "limit")
    (h3 : key ≠ "order_by") (h4 : key ≠ "weather") :
    makeQuery tks [(key, PVal.str "")] =
      { valid := true, clauses := [some (.inList field [""])],
        message := "", statusCode := 200, crashed := false } := by
  have hp : parseFieldOp key = (field, "in") := by
    simp [parseFieldOp, hsplit]
  have hmem : field ∈ tks := by simpa using hfield
  simp only [makeQuery, List.map, List.erase_cons, List.erase_nil,
    beq_iff_eq, h1, h2, h3, h4, if_false, if_neg]
  simp [mqLoop, processParam, hp, hmem, initState, lookupParam,
    pvAsStr, pySplitChar, splitCharAux]

/-- C5 (witness): instantiation of the amended theorem at the concrete
parameter `x__in=` on a table with column `x`. -/
theorem c5_in_empty_operand_clause_witness :
    makeQuery ["x"] [("x__in", PVal.str "")] =
      { valid := true, clauses := [some (.inList "x" [""])],
        message := "", statusCode := 200, crashed := false } :=
  c5_in_empty_operand_clause ["x"] "x__in" "x" (by decide) (by decide)
    (by decide) (by decide) (by decide) (by decide)

/-- C6 (counterexample): the key `a__b__c` contains two separators; the
claim predicts the field resolves to the text before the first
separator (`a`, a valid column here), but make_query's two-way unpacking
of the full split raises ValueError and falls back to treating the whole
key as the field, which then fails field validation naming `a__b__c`. -/
theorem c6_multi_separator_key_counterexample :
    makeQuery ["a"] [("a__b__c", PVal.str "1")] =
      { valid := false, clauses := [],
        message := pyRepr "a__b__c" ++ " is not a valid field name",
        statusCode := 400, crashed := false } ∧
    (["a"] : List String).contains "a" = true := by
  constructor
  · decide
  · decide

/-- C6 (amended): a raw key is split on every double-underscore
occurrence; only a key with exactly one separator yields a
(field, operator) pair.  A key with no separator defaults to the
equality operator on the whole key, and a key with two or more
separators also falls back to the whole key as the field (with equality
operator), so such a key is rejected as an invalid field name when the
full text is not a column. -/
theorem c6_dunder_split_fallback :
    (∀ (tks : List String) (field v : String),
      pySplitDunder field = [field] →
      tks.contains field = true → v ≠ "null" →
      field ≠ "offset" → field ≠ "limit" →
      field ≠ "order_by" → field ≠ "weather" →
      makeQuery tks [(field, PVal.str v)] =
        { valid := true,
          clauses := [some (.cmp field "__eq__" (some v))],
          message := "", statusCode := 200, crashed := false }) ∧
    (∀ (tks : List String) (key v : String),
      3 ≤ (pySplitDunder key).length →
      tks.contains key = false →
      key ≠ "offset" → key ≠ "limit" →
      key ≠ "order_by" → key ≠ "weather" →
      makeQuery tks [(key, PVal.str v)] =
        { valid := false, clauses := [],
          message := pyRepr key ++ " is not a valid field name",
          statusCode := 400, crashed := false }) := by
  constructor
  · intro tks field v hsplit hfield hv h1 h2 h3 h4
    have hp : parseFieldOp field = (field, "eq") := by
      simp [parseFieldOp, hsplit]
    have hmem : field ∈ tks := by simpa using hfield
    have hra : resolveAttr "eq" = some "__eq__" := by decide
    have hts : pyStartsWith "eq" "time_of_day" = false := by decide
    simp only [makeQuery, List.map, List.erase_cons, List.erase_nil,
      beq_iff_eq, h1, h2, h3, h4, if_false, if_neg]
    simp [mqLoop, processParam, hp, hmem, hra, hts, hv, initState,
      lookupParam, pvAsStr]
  · intro tks key v hlen hkey h1 h2 h3 h4
    have hpf : parseFieldOp key = (key, "eq") := by
      unfold parseFieldOp
      rcases hsd : pySplitDunder key with _ | ⟨a, _ | ⟨b, _ | ⟨c, rest⟩⟩⟩ <;>
        simp [hsd] at hlen ⊢
    have hnmem : key ∉ tks := by simpa using hkey
    simp only [makeQuery, List.map, List.erase_cons, List.erase_nil,
      beq_iff_eq, h1, h2, h3, h4, if_false, if_neg]
    simp [mqLoop, processParam, hpf, hnmem, initState]

/-- C6 (witness): instantiation of the amended theorem at the concrete
keys `plain` (no separator, valid column) and `a__b__c` (two
separators, not a column). -/
theorem c6_dunder_split_fallback_witness :
    makeQuery ["plain"] [("plain", PVal.str "7")] =
      { valid := true,
        clauses := [some (.cmp "plain" "__eq__" (some "7"))],
        message := "", statusCode := 200, crashed := false } ∧
    makeQuery ["a"] [("a__b__c", PVal.str "1")] =
      { valid := false, clauses := [],
        message := pyRepr "a__b__c" ++ " is not a valid field name",
        statusCode := 400, crashed := false } :=
  ⟨c6_dunder_split_fallback.1 ["plain"] "plain" "7" (by decide)
      (by decide) (by decide) (by decide) (by decide) (by decide)
      (by decide),
   c6_dunder_split_fallback.2 ["a"] "a__b__c" "1" (by decide)
      (by decide) (by decide) (by decide) (by decide) (by decide)⟩

/-- C8: a `within` filter whose resolved geometry is a LineString
produces a containment clause over the polygon obtained by buffering the
line by the (nonzero) north-south angular size of the fixed 100-meter
constant at the line's centroid latitude, and the payload carries the
EPSG:4326 coordinate reference system identifier. -/
theorem c8_within_linestring_buffered_polygon (tks : List String)
    (key field : String) (g : GeoPayload) (pts : List Pt)
    (hsplit : pySplitDunder key = [field, "within"])
    (hfield : tks.contains field = true)
    (hgeo : resolveGeom g = .lineString pts)
    (h1 : key ≠ "offset") (h2 : key ≠ "limit")
    (h3 : key ≠ "order_by") (h4 : key ≠ "weather") :
    makeQuery tks [(key, PVal.geo g)] =
      { valid := true,
        clauses := [some (.stWithin field
          ⟨Geom.polygon (.buffered pts
              ((getSizeInDegrees 100 (centroidLat pts)).2)),
           "EPSG:4326"⟩)],
        message := "", statusCode := 200, crashed := false } ∧
    0 < (getSizeInDegrees 100 (centroidLat pts)).2 := by
  constructor
  · have hp : parseFieldOp key = (field, "within") := by
      simp [parseFieldOp, hsplit]
    have hmem : field ∈ tks := by simpa using hfield
    simp only [makeQuery, List.map, List.erase_cons, List.erase_nil,
      beq_iff_eq, h1, h2, h3, h4, if_false, if_neg]
    simp [mqLoop, processParam, hp, hmem, initState, lookupParam,
      normalizeWithin, hgeo, bufferLine]
  · simp only [getSizeInDegrees, earthCircumference]
    norm_num

/-- C8 (witness): instantiation at a concrete two-point LineString given
as a bare geometry payload. -/
theorem c8_within_linestring_buffered_polygon_witness :
    makeQuery ["geom"]
      [("geom__within", PVal.geo (.bare (.lineString [⟨0, 0⟩, ⟨1, 1⟩])))] =
      { valid := true,
        clauses := [some (.stWithin "geom"
          ⟨Geom.polygon (.buffered [⟨0, 0⟩, ⟨1, 1⟩]
              ((getSizeInDegrees 100 (centroidLat [⟨0, 0⟩, ⟨1, 1⟩])).2)),
           "EPSG:4326"⟩)],
        message := "", statusCode := 200, crashed := false } ∧
    0 < (getSizeInDegrees 100 (centroidLat [⟨0, 0⟩, ⟨1, 1⟩])).2 :=
  c8_within_linestring_buffered_polygon ["geom"] "geom__within" "geom"
    (.bare (.lineString [⟨0, 0⟩, ⟨1, 1⟩])) [⟨0, 0⟩, ⟨1, 1⟩]
    (by decide) (by decide) (by decide) (by decide) (by decide)
    (by decide) (by decide)

/-- C10: a parameter whose operator suffix starts with `time_of_day` but
ends in neither `ge` nor `le` is silently accepted: the translator
appends a Python-None entry to the clause list and leaves the overall
result valid with no error message. -/
theorem c10_time_of_day_unknown_suffix_appends_none :
    makeQuery ["col"] [("col__time_of_day_xx", PVal.str "5")] =
      { valid := true, clauses := [none], message := "",
        statusCode := 200, crashed := false } := by
  decide

/-! ## Calendar arithmetic lemmas -/

theorem daysInMonth_le (y m : Nat) : daysInMonth y m ≤ 31 := by
  unfold daysInMonth
  split_ifs <;> omega

theorem daysInMonth_ge (y m : Nat) : 28 ≤ daysInMonth y m := by
  unfold daysInMonth
  split_ifs <;> omega

theorem addDays1_valid {dt : DateTime} (h : dt.Valid) :
    (addDays1 dt).Valid := by
  obtain ⟨hy, hm1, hm2, hd1, hd2, hh, hmi, hs, hmu⟩ := h
  have g1 := daysInMonth_ge dt.year (dt.month + 1)
  have g2 := daysInMonth_ge (dt.year + 1) 1
  unfold addDays1 DateTime.Valid
  split_ifs <;> simp <;> omega

theorem addHours1_valid {dt : DateTime} (h : dt.Valid) :
    (addHours1 dt).Valid := by
  obtain ⟨hy, hm1, hm2, hd1, hd2, hh, hmi, hs, hmu⟩ := h
  unfold addHours1
  split_ifs with h1
  · exact ⟨hy, hm1, hm2, hd1, hd2, h1, hmi, hs, hmu⟩
  · exact addDays1_valid ⟨hy, hm1, hm2, hd1, hd2, Nat.zero_le 23, hmi, hs, hmu⟩

theorem addMinutes1_valid {dt : DateTime} (h : dt.Valid) :
    (addMinutes1 dt).Valid := by
  obtain ⟨hy, hm1, hm2, hd1, hd2, hh, hmi, hs, hmu⟩ := h
  unfold addMinutes1
  split_ifs with h1
  · exact ⟨hy, hm1, hm2, hd1, hd2, hh, h1, hs, hmu⟩
  · exact addHours1_valid ⟨hy, hm1, hm2, hd1, hd2, hh, Nat.zero_le 59, hs, hmu⟩

theorem addSeconds1_valid {dt : DateTime} (h : dt.Valid) :
    (addSeconds1 dt).Valid := by
  obtain ⟨hy, hm1, hm2, hd1, hd2, hh, hmi, hs, hmu⟩ := h
  unfold addSeconds1
  split_ifs with h1
  · exact ⟨hy, hm1, hm2, hd1, hd2, hh, hmi, h1, hmu⟩
  · exact addMinutes1_valid ⟨hy, hm1, hm2, hd1, hd2, hh, hmi, Nat.zero_le 59, hmu⟩

theorem addMicros1_valid {dt : DateTime} (h : dt.Valid) :
    (addMicros1 dt).Valid := by
  obtain ⟨hy, hm1, hm2, hd1, hd2, hh, hmi, hs, hmu⟩ := h
  unfold addMicros1
  split_ifs with h1
  · exact ⟨hy, hm1, hm2, hd1, hd2, hh, hmi, hs, h1⟩
  · exact addSeconds1_valid ⟨hy, hm1, hm2, hd1, hd2, hh, hmi, hs, Nat.zero_le 999999⟩

theorem addMonths1_valid {dt : DateTime} (h : dt.Valid) :
    (addMonths1 dt).Valid := by
  obtain ⟨hy, hm1, hm2, hd1, hd2, hh, hmi, hs, hmu⟩ := h
  have g1 := daysInMonth_ge dt.year (dt.month + 1)
  have g2 := daysInMonth_ge (dt.year + 1) 1
  unfold addMonths1 clampDay DateTime.Valid
  split_ifs <;> simp <;> omega

theorem addYears1_valid {dt : DateTime} (h : dt.Valid) :
    (addYears1 dt).Valid := by
  obtain ⟨hy, hm1, hm2, hd1, hd2, hh, hmi, hs, hmu⟩ := h
  have g1 := daysInMonth_ge (dt.year + 1) dt.month
  unfold addYears1 clampDay DateTime.Valid
  simp
  omega

theorem addOne_valid (u : TimeUnit) {dt : DateTime} (h : dt.Valid) :
    (addOne u dt).Valid := by
  cases u with
  | year => exact addYears1_valid h
  | month => exact addMonths1_valid h
  | day => exact addDays1_valid h
  | hour => exact addHours1_valid h
  | minute => exact addMinutes1_valid h
  | second => exact addSeconds1_valid h
  | microsecond => exact addMicros1_valid h

theorem rank_addDays1 {dt : DateTime} (h : dt.Valid) :
    rank dt + 86400000000 ≤ rank (addDays1 dt) := by
  obtain ⟨hy, hm1, hm2, hd1, hd2, hh, hmi, hs, hmu⟩ := h
  have g3 := daysInMonth_le dt.year dt.month
  unfold addDays1 rank
  split_ifs <;> simp <;> omega

theorem rank_addHours1 {dt : DateTime} (h : dt.Valid) :
    rank dt + 3600000000 ≤ rank (addHours1 dt) := by
  obtain ⟨hy, hm1, hm2, hd1, hd2, hh, hmi, hs, hmu⟩ := h
  unfold addHours1
  split_ifs with h1
  · unfold rank
    simp
    omega
  · have hr := rank_addDays1
      (show ({ dt with hour := 0 } : DateTime).Valid from
        ⟨hy, hm1, hm2, hd1, hd2, Nat.zero_le 23, hmi, hs, hmu⟩)
    unfold rank at hr ⊢
    simp at hr ⊢
    omega

theorem rank_addMinutes1 {dt : DateTime} (h : dt.Valid) :
    rank dt + 60000000 ≤ rank (addMinutes1 dt) := by
  obtain ⟨hy, hm1, hm2, hd1, hd2, hh, hmi, hs, hmu⟩ := h
  unfold addMinutes1
  split_ifs with h1
  · unfold rank
    simp
    omega
  · have hr := rank_addHours1
      (show ({ dt with minute := 0 } : DateTime).Valid from
        ⟨hy, hm1, hm2, hd1, hd2, hh, Nat.zero_le 59, hs, hmu⟩)
    unfold rank at hr ⊢
    simp at hr ⊢
    omega

theorem rank_addSeconds1 {dt : DateTime} (h : dt.Valid) :
    rank dt + 1000000 ≤ rank (addSeconds1 dt) := by
  obtain ⟨hy, hm1, hm2, hd1, hd2, hh, hmi, hs, hmu⟩ := h
  unfold addSeconds1
  split_ifs with h1
  · unfold rank
    simp
    omega
  · have hr := rank_addMinutes1
      (show ({ dt with second := 0 } : DateTime).Valid from
        ⟨hy, hm1, hm2, hd1, hd2, hh, hmi, Nat.zero_le 59, hmu⟩)
    unfold rank at hr ⊢
    simp at hr ⊢
    omega

theorem rank_addMicros1 {dt : DateTime} (h : dt.Valid) :
    rank dt + 1 ≤ rank (addMicros1 dt) := by
  obtain ⟨hy, hm1, hm2, hd1, hd2, hh, hmi, hs, hmu⟩ := h
  unfold addMicros1
  split_ifs with h1
  · unfold rank
    simp
    omega
  · have hr := rank_addSeconds1
      (show ({ dt with microsecond := 0 } : DateTime).Valid from
        ⟨hy, hm1, hm2, hd1, hd2, hh, hmi, hs, Nat.zero_le 999999⟩)
    unfold rank at hr ⊢
    simp at hr ⊢
    omega

theorem rank_addMonths1 {dt : DateTime} (h : dt.Valid) :
    rank dt < rank (addMonths1 dt) := by
  obtain ⟨hy, hm1, hm2, hd1, hd2, hh, hmi, hs, hmu⟩ := h
  have g3 := daysInMonth_le dt.year dt.month
  have g1 := daysInMonth_ge dt.year (dt.month + 1)
  have g2 := daysInMonth_ge (dt.year + 1) 1
  unfold addMonths1 clampDay rank
  split_ifs <;> simp <;> omega

theorem rank_addYears1 {dt : DateTime} (h : dt.Valid) :
    rank dt < rank (addYears1 dt) := by
  obtain ⟨hy, hm1, hm2, hd1, hd2, hh, hmi, hs, hmu⟩ := h
  have g3 := daysInMonth_le dt.year dt.month
  have g1 := daysInMonth_ge (dt.year + 1) dt.month
  unfold addYears1 clampDay rank
  simp
  omega

theorem rank_addOne (u : TimeUnit) {dt : DateTime} (h : dt.Valid) :
    rank dt < rank (addOne u dt) := by
  cases u with
  | year => exact rank_addYears1 h
  | month => exact rank_addMonths1 h
  | day => have := rank_addDays1 h; simpa [addOne] using by omega
  | hour => have := rank_addHours1 h; simpa [addOne] using by omega
  | minute => have := rank_addMinutes1 h; simpa [addOne] using by omega
  | second => have := rank_addSeconds1 h; simpa [addOne] using by omega
  | microsecond => have := rank_addMicros1 h; simpa [addOne] using by omega

set_option maxHeartbeats 1000000 in
theorem lexLeB_of_rank_le {a b : DateTime} (ha : a.Valid) (hb : b.Valid)
    (hr : rank a ≤ rank b) : lexLeB a b = true := by
  obtain ⟨hay, ham1, ham2, had1, had2, hah, hami, has, hamu⟩ := ha
  obtain ⟨hby, hbm1, hbm2, hbd1, hbd2, hbh, hbmi, hbs, hbmu⟩ := hb
  have had31 : a.day ≤ 31 := le_trans had2 (daysInMonth_le a.year a.month)
  have hbd31 : b.day ≤ 31 := le_trans hbd2 (daysInMonth_le b.year b.month)
  unfold rank at hr
  unfold lexLeB
  rcases Nat.lt_trichotomy a.year b.year with h1 | h1 | h1
  · rw [if_pos h1]
  · rw [if_neg (by omega), if_neg (by omega)]
    rcases Nat.lt_trichotomy a.month b.month with h2 | h2 | h2
    · rw [if_pos h2]
    · rw [if_neg (by omega), if_neg (by omega)]
      rcases Nat.lt_trichotomy a.day b.day with h3 | h3 | h3
      · rw [if_pos h3]
      · rw [if_neg (by omega), if_neg (by omega)]
        rcases Nat.lt_trichotomy a.hour b.hour with h4 | h4 | h4
        · rw [if_pos h4]
        · rw [if_neg (by omega), if_neg (by omega)]
          rcases Nat.lt_trichotomy a.minute b.minute with h5 | h5 | h5
          · rw [if_pos h5]
          · rw [if_neg (by omega), if_neg (by omega)]
            rcases Nat.lt_trichotomy a.second b.second with h6 | h6 | h6
            · rw [if_pos h6]
            · rw [if_neg (by omega), if_neg (by omega)]
              simp only [decide_eq_true_eq]
              omega
            · exfalso; omega
          · exfalso; omega
        · exfalso; omega
      · exfalso; omega
    · exfalso; omega
  · exfalso; omega

set_option maxHeartbeats 1000000 in
theorem lexLeB_false_of_rank_gt {a b : DateTime} (ha : a.Valid)
    (hb : b.Valid) (hr : rank b < rank a) : lexLeB a b = false := by
  obtain ⟨hay, ham1, ham2, had1, had2, hah, hami, has, hamu⟩ := ha
  obtain ⟨hby, hbm1, hbm2, hbd1, hbd2, hbh, hbmi, hbs, hbmu⟩ := hb
  have had31 : a.day ≤ 31 := le_trans had2 (daysInMonth_le a.year a.month)
  have hbd31 : b.day ≤ 31 := le_trans hbd2 (daysInMonth_le b.year b.month)
  unfold rank at hr
  unfold lexLeB
  rcases Nat.lt_trichotomy a.year b.year with h1 | h1 | h1
  · exfalso; omega
  · rw [if_neg (by omega), if_neg (by omega)]
    rcases Nat.lt_trichotomy a.month b.month with h2 | h2 | h2
    · exfalso; omega
    · rw [if_neg (by omega), if_neg (by omega)]
      rcases Nat.lt_trichotomy a.day b.day with h3 | h3 | h3
      · exfalso; omega
      · rw [if_neg (by omega), if_neg (by omega)]
        rcases Nat.lt_trichotomy a.hour b.hour with h4 | h4 | h4
        · exfalso; omega
        · rw [if_neg (by omega), if_neg (by omega)]
          rcases Nat.lt_trichotomy a.minute b.minute with h5 | h5 | h5
          · exfalso; omega
          · rw [if_neg (by omega), if_neg (by omega)]
            rcases Nat.lt_trichotomy a.second b.second with h6 | h6 | h6
            · exfalso; omega
            · rw [if_neg (by omega), if_neg (by omega)]
              simp only [decide_eq_false_iff_not]
              omega
            · rw [if_neg (by omega), if_pos h6]
          · rw [if_neg (by omega), if_pos h5]
        · rw [if_neg (by omega), if_pos h4]
      · rw [if_neg (by omega), if_pos h3]
    · rw [if_neg (by omega), if_pos h2]
  · rw [if_neg (by omega), if_pos h1]

set_option maxHeartbeats 1000000 in
theorem lexLtB_of_rank_lt {a b : DateTime} (ha : a.Valid) (hb : b.Valid)
    (hr : rank a < rank b) : lexLtB a b = true := by
  obtain ⟨hay, ham1, ham2, had1, had2, hah, hami, has, hamu⟩ := ha
  obtain ⟨hby, hbm1, hbm2, hbd1, hbd2, hbh, hbmi, hbs, hbmu⟩ := hb
  have had31 : a.day ≤ 31 := le_trans had2 (daysInMonth_le a.year a.month)
  have hbd31 : b.day ≤ 31 := le_trans hbd2 (daysInMonth_le b.year b.month)
  unfold rank at hr
  unfold lexLtB
  rcases Nat.lt_trichotomy a.year b.year with h1 | h1 | h1
  · rw [if_pos h1]
  · rw [if_neg (by omega), if_neg (by omega)]
    rcases Nat.lt_trichotomy a.month b.month with h2 | h2 | h2
    · rw [if_pos h2]
    · rw [if_neg (by omega), if_neg (by omega)]
      rcases Nat.lt_trichotomy a.day b.day with h3 | h3 | h3
      · rw [if_pos h3]
      · rw [if_neg (by omega), if_neg (by omega)]
        rcases Nat.lt_trichotomy a.hour b.hour with h4 | h4 | h4
        · rw [if_pos h4]
        · rw [if_neg (by omega), if_neg (by omega)]
          rcases Nat.lt_trichotomy a.minute b.minute with h5 | h5 | h5
          · rw [if_pos h5]
          · rw [if_neg (by omega), if_neg (by omega)]
            rcases Nat.lt_trichotomy a.second b.second with h6 | h6 | h6
            · rw [if_pos h6]
            · rw [if_neg (by omega), if_neg (by omega)]
              simp only [decide_eq_true_eq]
              omega
            · exfalso; omega
          · exfalso; omega
        · exfalso; omega
      · exfalso; omega
    · exfalso; omega
  · exfalso; omega

set_option maxHeartbeats 1000000 in
theorem lexLtB_false_of_rank_ge {a b : DateTime} (ha : a.Valid)
    (hb : b.Valid) (hr : rank b ≤ rank a) : lexLtB a b = false := by
  obtain ⟨hay, ham1, ham2, had1, had2, hah, hami, has, hamu⟩ := ha
  obtain ⟨hby, hbm1, hbm2, hbd1, hbd2, hbh, hbmi, hbs, hbmu⟩ := hb
  have had31 : a.day ≤ 31 := le_trans had2 (daysInMonth_le a.year a.month)
  have hbd31 : b.day ≤ 31 := le_trans hbd2 (daysInMonth_le b.year b.month)
  unfold rank at hr
  unfold lexLtB
  rcases Nat.lt_trichotomy a.year b.year with h1 | h1 | h1
  · exfalso; omega
  · rw [if_neg (by omega), if_neg (by omega)]
    rcases Nat.lt_trichotomy a.month b.month with h2 | h2 | h2
    · exfalso; omega
    · rw [if_neg (by omega), if_neg (by omega)]
      rcases Nat.lt_trichotomy a.day b.day with h3 | h3 | h3
      · exfalso; omega
      · rw [if_neg (by omega), if_neg (by omega)]
        rcases Nat.lt_trichotomy a.hour b.hour with h4 | h4 | h4
        · exfalso; omega
        · rw [if_neg (by omega), if_neg (by omega)]
          rcases Nat.lt_trichotomy a.minute b.minute with h5 | h5 | h5
          · exfalso; omega
          · rw [if_neg (by omega), if_neg (by omega)]
            rcases Nat.lt_trichotomy a.second b.second with h6 | h6 | h6
            · exfalso; omega
            · rw [if_neg (by omega), if_neg (by omega)]
              simp only [decide_eq_false_iff_not]
              omega
            · rw [if_neg (by omega), if_pos h6]
          · rw [if_neg (by omega), if_pos h5]
        · rw [if_neg (by omega), if_pos h4]
      · rw [if_neg (by omega), if_pos h3]
    · rw [if_neg (by omega), if_pos h2]
  · rw [if_neg (by omega), if_pos h1]

theorem lexLeB_iff_rank {a b : DateTime} (ha : a.Valid) (hb : b.Valid) :
    lexLeB a b = true ↔ rank a ≤ rank b := by
  constructor
  · intro h
    by_contra hn
    rw [lexLeB_false_of_rank_gt ha hb (by omega)] at h
    exact absurd h (by decide)
  · exact lexLeB_of_rank_le ha hb

theorem lexLtB_iff_rank {a b : DateTime} (ha : a.Valid) (hb : b.Valid) :
    lexLtB a b = true ↔ rank a < rank b := by
  constructor
  · intro h
    by_contra hn
    rw [lexLtB_false_of_rank_ge ha hb (by omega)] at h
    exact absurd h (by decide)
  · exact lexLtB_of_rank_lt ha hb

theorem getLast?_cons_of_ne_nil {α : Type} (a : α) {l : List α}
    (h : l ≠ []) : (a :: l).getLast? = l.getLast? := by
  cases l with
  | nil => exact absurd rfl h
  | cons b t => simp [List.getLast?_cons_cons]

/-- Behaviour of the `_generate_datetime_range` loop on valid inputs:
with enough fuel the loop runs to its natural exit, producing a list
that starts at `cur`, is strictly increasing, and ends at the last
boundary not beyond `e`. -/
theorem genRangeAux_spec {e : DateTime} (u : TimeUnit) (he : e.Valid) :
    ∀ (fuel : Nat) (cur : DateTime), cur.Valid → lexLeB cur e = true →
      rank e + 1 - rank cur ≤ fuel →
      (genRangeAux e u fuel cur).head? = some cur ∧
      List.Chain' (fun a b => lexLtB a b = true) (genRangeAux e u fuel cur) ∧
      ∃ z, (genRangeAux e u fuel cur).getLast? = some z ∧
        lexLeB z e = true ∧ lexLeB (addOne u z) e = false := by
  intro fuel
  induction fuel with
  | zero =>
    intro cur hc hle hf
    exfalso
    have := (lexLeB_iff_rank hc he).1 hle
    omega
  | succ f ih =>
    intro cur hc hle hf
    have hrank := (lexLeB_iff_rank hc he).1 hle
    have hvc2 : (addOne u cur).Valid := addOne_valid u hc
    have hinc : rank cur < rank (addOne u cur) := rank_addOne u hc
    have hunf : genRangeAux e u (f + 1) cur =
        if lexLeB cur e then cur :: genRangeAux e u f (addOne u cur)
        else [] := rfl
    rw [hunf, if_pos hle]
    by_cases hc2 : lexLeB (addOne u cur) e = true
    · have hf2 : rank e + 1 - rank (addOne u cur) ≤ f := by
        have := (lexLeB_iff_rank hvc2 he).1 hc2
        omega
      obtain ⟨hhead, hchain, z, hlast, hz1, hz2⟩ := ih (addOne u cur) hvc2 hc2 hf2
      have hne : genRangeAux e u f (addOne u cur) ≠ [] := by
        intro h0
        rw [h0] at hhead
        exact absurd hhead (by simp)
      refine ⟨by simp, ?_, z, ?_, hz1, hz2⟩
      · rw [List.chain'_cons']
        refine ⟨?_, hchain⟩
        intro y hy
        rw [hhead] at hy
        simp at hy
        subst hy
        exact lexLtB_of_rank_lt hc hvc2 hinc
      · rw [getLast?_cons_of_ne_nil _ hne]
        exact hlast
    · have hstop : genRangeAux e u f (addOne u cur) = [] := by
        cases f with
        | zero => rfl
        | succ f2 =>
          show (if lexLeB (addOne u cur) e then _ else []) = []
          rw [if_neg]
          simpa using hc2
      rw [hstop]
      exact ⟨rfl, by simp, cur, rfl,
        hle, by simpa using hc2⟩

theorem tryZero_month_id (dt : DateTime) : tryZero dt .month = dt := by
  unfold tryZero setFieldZero
  rw [if_neg]
  intro hv
  have h2 := hv.2.1
  simp at h2

theorem tryZero_day_id (dt : DateTime) : tryZero dt .day = dt := by
  unfold tryZero setFieldZero
  rw [if_neg]
  intro hv
  have h2 := hv.2.2.2.1
  simp at h2

theorem valid_update_time {dt : DateTime} (h : dt.Valid) {a b c d : Nat}
    (ha : a ≤ 23) (hb : b ≤ 59) (hc : c ≤ 59) (hd : d ≤ 999999) :
    ({ dt with
        hour := a
        minute := b
        second := c
        microsecond := d } : DateTime).Valid := by
  obtain ⟨hy, hm1, hm2, hd1, hd2, _, _, _, _⟩ := h
  exact ⟨hy, hm1, hm2, hd1, hd2, ha, hb, hc, hd⟩

theorem tryZero_hour {dt : DateTime} (h : dt.Valid) :
    tryZero dt .hour = { dt with hour := 0 } := by
  obtain ⟨hy, hm1, hm2, hd1, hd2, hh, hmi, hs, hmu⟩ := h
  unfold tryZero setFieldZero
  rw [if_pos ⟨hy, hm1, hm2, hd1, hd2, Nat.zero_le 23, hmi, hs, hmu⟩]

theorem tryZero_minute {dt : DateTime} (h : dt.Valid) :
    tryZero dt .minute = { dt with minute := 0 } := by
  obtain ⟨hy, hm1, hm2, hd1, hd2, hh, hmi, hs, hmu⟩ := h
  unfold tryZero setFieldZero
  rw [if_pos ⟨hy, hm1, hm2, hd1, hd2, hh, Nat.zero_le 59, hs, hmu⟩]

theorem tryZero_second {dt : DateTime} (h : dt.Valid) :
    tryZero dt .second = { dt with second := 0 } := by
  obtain ⟨hy, hm1, hm2, hd1, hd2, hh, hmi, hs, hmu⟩ := h
  unfold tryZero setFieldZero
  rw [if_pos ⟨hy, hm1, hm2, hd1, hd2, hh, hmi, Nat.zero_le 59, hmu⟩]

theorem tryZero_micro {dt : DateTime} (h : dt.Valid) :
    tryZero dt .microsecond = { dt with microsecond := 0 } := by
  obtain ⟨hy, hm1, hm2, hd1, hd2, hh, hmi, hs, hmu⟩ := h
  unfold tryZero setFieldZero
  rw [if_pos ⟨hy, hm1, hm2, hd1, hd2, hh, hmi, hs, Nat.zero_le 999999⟩]

theorem zeroOut_year_eq {dt : DateTime} (h : dt.Valid) :
    zeroOutDatetime dt .year =
      { dt with
        hour := 0
        minute := 0
        second := 0
        microsecond := 0 } := by
  obtain ⟨hy, hm1, hm2, hd1, hd2, hh, hmi, hs, hmu⟩ := h
  have h0 : dt.Valid := ⟨hy, hm1, hm2, hd1, hd2, hh, hmi, hs, hmu⟩
  show List.foldl tryZero dt
    [.month, .day, .hour, .minute, .second, .microsecond] = _
  simp only [List.foldl]
  rw [tryZero_month_id, tryZero_day_id, tryZero_hour h0,
    tryZero_minute (valid_update_time h0 (Nat.zero_le 23) hmi hs hmu),
    tryZero_second
      (valid_update_time h0 (Nat.zero_le 23) (Nat.zero_le 59) hs hmu),
    tryZero_micro
      (valid_update_time h0 (Nat.zero_le 23) (Nat.zero_le 59)
        (Nat.zero_le 59) hmu)]

theorem zeroOut_month_eq {dt : DateTime} (h : dt.Valid) :
    zeroOutDatetime dt .month =
      { dt with
        hour := 0
        minute := 0
        second := 0
        microsecond := 0 } := by
  obtain ⟨hy, hm1, hm2, hd1, hd2, hh, hmi, hs, hmu⟩ := h
  have h0 : dt.Valid := ⟨hy, hm1, hm2, hd1, hd2, hh, hmi, hs, hmu⟩
  show List.foldl tryZero dt
    [.day, .hour, .minute, .second, .microsecond] = _
  simp only [List.foldl]
  rw [tryZero_day_id, tryZero_hour h0,
    tryZero_minute (valid_update_time h0 (Nat.zero_le 23) hmi hs hmu),
    tryZero_second
      (valid_update_time h0 (Nat.zero_le 23) (Nat.zero_le 59) hs hmu),
    tryZero_micro
      (valid_update_time h0 (Nat.zero_le 23) (Nat.zero_le 59)
        (Nat.zero_le 59) hmu)]

theorem zeroOut_day_eq {dt : DateTime} (h : dt.Valid) :
    zeroOutDatetime dt .day =
      { dt with
        hour := 0
        minute := 0
        second := 0
        microsecond := 0 } := by
  obtain ⟨hy, hm1, hm2, hd1, hd2, hh, hmi, hs, hmu⟩ := h
  have h0 : dt.Valid := ⟨hy, hm1, hm2, hd1, hd2, hh, hmi, hs, hmu⟩
  show List.foldl tryZero dt [.hour, .minute, .second, .microsecond] = _
  simp only [List.foldl]
  rw [tryZero_hour h0,
    tryZero_minute (valid_update_time h0 (Nat.zero_le 23) hmi hs hmu),
    tryZero_second
      (valid_update_time h0 (Nat.zero_le 23) (Nat.zero_le 59) hs hmu),
    tryZero_micro
      (valid_update_time h0 (Nat.zero_le 23) (Nat.zero_le 59)
        (Nat.zero_le 59) hmu)]

theorem zeroOut_hour_eq {dt : DateTime} (h : dt.Valid) :
    zeroOutDatetime dt .hour =
      { dt with minute := 0, second := 0, microsecond := 0 } := by
  obtain ⟨hy, hm1, hm2, hd1, hd2, hh, hmi, hs, hmu⟩ := h
  have h0 : dt.Valid := ⟨hy, hm1, hm2, hd1, hd2, hh, hmi, hs, hmu⟩
  show List.foldl tryZero dt [.minute, .second, .microsecond] = _
  simp only [List.foldl]
  rw [tryZero_minute h0,
    tryZero_second (valid_update_time h0 hh (Nat.zero_le 59) hs hmu),
    tryZero_micro
      (valid_update_time h0 hh (Nat.zero_le 59) (Nat.zero_le 59) hmu)]

theorem zeroOut_minute_eq {dt : DateTime} (h : dt.Valid) :
    zeroOutDatetime dt .minute =
      { dt with second := 0, microsecond := 0 } := by
  obtain ⟨hy, hm1, hm2, hd1, hd2, hh, hmi, hs, hmu⟩ := h
  have h0 : dt.Valid := ⟨hy, hm1, hm2, hd1, hd2, hh, hmi, hs, hmu⟩
  show List.foldl tryZero dt [.second, .microsecond] = _
  simp only [List.foldl]
  rw [tryZero_second h0,
    tryZero_micro (valid_update_time h0 hh hmi (Nat.zero_le 59) hmu)]

theorem zeroOut_second_eq {dt : DateTime} (h : dt.Valid) :
    zeroOutDatetime dt .second = { dt with microsecond := 0 } := by
  obtain ⟨hy, hm1, hm2, hd1, hd2, hh, hmi, hs, hmu⟩ := h
  have h0 : dt.Valid := ⟨hy, hm1, hm2, hd1, hd2, hh, hmi, hs, hmu⟩
  show List.foldl tryZero dt [.microsecond] = _
  simp only [List.foldl]
  rw [tryZero_micro h0]

theorem zeroOut_micro_eq (dt : DateTime) :
    zeroOutDatetime dt .microsecond = dt := rfl

/-- C7: `_zero_out_datetime` is idempotent on valid datetimes: a second
application with the same unit changes nothing.  Moreover it zeroes
every component strictly more granular than the unit except the month
and day components, which cannot be set to 0 (Python's `replace` raises
ValueError, silently swallowed), and it preserves the unit's own
component, every coarser component, and month and day. -/
theorem c7_zero_out_datetime_idempotent (dt : DateTime) (u : TimeUnit)
    (h : dt.Valid) :
    zeroOutDatetime (zeroOutDatetime dt u) u = zeroOutDatetime dt u ∧
    (∀ u2 : TimeUnit, unitIndex u < unitIndex u2 → u2 ≠ .month →
      u2 ≠ .day → getField (zeroOutDatetime dt u) u2 = 0) ∧
    (∀ u2 : TimeUnit,
      unitIndex u2 ≤ unitIndex u ∨ u2 = .month ∨ u2 = .day →
      getField (zeroOutDatetime dt u) u2 = getField dt u2) := by
  obtain ⟨hy, hm1, hm2, hd1, hd2, hh, hmi, hs, hmu⟩ := h
  have h0 : dt.Valid := ⟨hy, hm1, hm2, hd1, hd2, hh, hmi, hs, hmu⟩
  cases u with
  | year =>
    rw [zeroOut_year_eq h0,
      zeroOut_year_eq (valid_update_time h0 (Nat.zero_le 23)
        (Nat.zero_le 59) (Nat.zero_le 59) (Nat.zero_le 999999))]
    refine ⟨rfl, ?_, ?_⟩
    · intro u2 h1 h2 h3
      cases u2 <;> simp_all [unitIndex, getField]
    · intro u2 h1
      cases u2 <;> simp_all [unitIndex, getField]
  | month =>
    rw [zeroOut_month_eq h0,
      zeroOut_month_eq (valid_update_time h0 (Nat.zero_le 23)
        (Nat.zero_le 59) (Nat.zero_le 59) (Nat.zero_le 999999))]
    refine ⟨rfl, ?_, ?_⟩
    · intro u2 h1 h2 h3
      cases u2 <;> simp_all [unitIndex, getField]
    · intro u2 h1
      cases u2 <;> simp_all [unitIndex, getField]
  | day =>
    rw [zeroOut_day_eq h0,
      zeroOut_day_eq (valid_update_time h0 (Nat.zero_le 23)
        (Nat.zero_le 59) (Nat.zero_le 59) (Nat.zero_le 999999))]
    refine ⟨rfl, ?_, ?_⟩
    · intro u2 h1 h2 h3
      cases u2 <;> simp_all [unitIndex, getField]
    · intro u2 h1
      cases u2 <;> simp_all [unitIndex, getField]
  | hour =>
    rw [zeroOut_hour_eq h0,
      zeroOut_hour_eq (valid_update_time h0 hh (Nat.zero_le 59)
        (Nat.zero_le 59) (Nat.zero_le 999999))]
    refine ⟨rfl, ?_, ?_⟩
    · intro u2 h1 h2 h3
      cases u2 <;> simp_all [unitIndex, getField]
    · intro u2 h1
      cases u2 <;> simp_all [unitIndex, getField]
  | minute =>
    rw [zeroOut_minute_eq h0,
      zeroOut_minute_eq (valid_update_time h0 hh hmi (Nat.zero_le 59)
        (Nat.zero_le 999999))]
    refine ⟨rfl, ?_, ?_⟩
    · intro u2 h1 h2 h3
      cases u2 <;> simp_all [unitIndex, getField]
    · intro u2 h1
      cases u2 <;> simp_all [unitIndex, getField]
  | second =>
    rw [zeroOut_second_eq h0,
      zeroOut_second_eq (valid_update_time h0 hh hmi hs
        (Nat.zero_le 999999))]
    refine ⟨rfl, ?_, ?_⟩
    · intro u2 h1 h2 h3
      cases u2 <;> simp_all [unitIndex, getField]
    · intro u2 h1
      cases u2 <;> simp_all [unitIndex, getField]
  | microsecond =>
    rw [zeroOut_micro_eq, zeroOut_micro_eq]
    refine ⟨rfl, ?_, ?_⟩
    · intro u2 h1 h2 h3
      cases u2 <;> simp_all [unitIndex, getField]
    · intro u2 h1
      rfl

/-- C7 (witness): the idempotence theorem at the source docstring's own
example, 2016-09-20 08:12:12 zeroed at hour granularity. -/
theorem c7_zero_out_datetime_idempotent_witness :
    zeroOutDatetime
        (zeroOutDatetime ⟨2016, 9, 20, 8, 12, 12, 0⟩ .hour) .hour =
      zeroOutDatetime ⟨2016, 9, 20, 8, 12, 12, 0⟩ .hour ∧
    (∀ u2 : TimeUnit, unitIndex .hour < unitIndex u2 → u2 ≠ .month →
      u2 ≠ .day →
      getField (zeroOutDatetime ⟨2016, 9, 20, 8, 12, 12, 0⟩ .hour) u2 =
        0) ∧
    (∀ u2 : TimeUnit,
      unitIndex u2 ≤ unitIndex .hour ∨ u2 = .month ∨ u2 = .day →
      getField (zeroOutDatetime ⟨2016, 9, 20, 8, 12, 12, 0⟩ .hour) u2 =
        getField ⟨2016, 9, 20, 8, 12, 12, 0⟩ u2) :=
  c7_zero_out_datetime_idempotent ⟨2016, 9, 20, 8, 12, 12, 0⟩ .hour
    (by decide)

/-- C1 (counterexample): with `start = 2021-01-01T00:00` and
`end = 2021-01-02T12:00` at day granularity, the generated boundaries
are `[2021-01-01, 2021-01-02]`: the last boundary is strictly before
`end`, so the sequence's last element is not `≥ end` and the final
partial bucket's right edge is not `end`. -/
theorem c1_last_boundary_below_end_counterexample :
    generateDatetimeRange ⟨2021, 1, 1, 0, 0, 0, 0⟩
        ⟨2021, 1, 2, 12, 0, 0, 0⟩ .day =
      [⟨2021, 1, 1, 0, 0, 0, 0⟩, ⟨2021, 1, 2, 0, 0, 0, 0⟩] ∧
    lexLtB ⟨2021, 1, 2, 0, 0, 0, 0⟩ ⟨2021, 1, 2, 12, 0, 0, 0⟩ = true := by
  constructor
  · decide
  · decide

/-- C1 (amended): for valid datetimes with `start ≤ end`, the generated
boundary sequence is non-empty, strictly increasing, starts exactly at
`start`, and ends at the largest boundary that is `≤ end` (one more
unit step leaves the range), so the last boundary can fall strictly
short of `end` when the range is not an exact multiple of the unit; for
`start > end` the sequence is empty. -/
theorem c1_generate_buckets_coverage (s e : DateTime) (u : TimeUnit)
    (hs : s.Valid) (he : e.Valid) (hse : lexLeB s e = true) :
    generateDatetimeRange s e u ≠ [] ∧
    (generateDatetimeRange s e u).head? = some s ∧
    List.Chain' (fun a b => lexLtB a b = true)
      (generateDatetimeRange s e u) ∧
    ∃ z, (generateDatetimeRange s e u).getLast? = some z ∧
      lexLeB z e = true ∧ lexLeB (addOne u z) e = false := by
  obtain ⟨hhead, hchain, z, hlast, hz1, hz2⟩ :=
    genRangeAux_spec u he (rank e + 1 - rank s) s hs hse le_rfl
  refine ⟨?_, hhead, hchain, z, hlast, hz1, hz2⟩
  intro h0
  have h1 : genRangeAux e u (rank e + 1 - rank s) s = [] := h0
  rw [h1] at hhead
  exact absurd hhead (by simp)

/-- C1 (witness): the amended theorem at the spec's own example,
`generate_buckets("2021-01-01", "2021-01-03", "day")`. -/
theorem c1_generate_buckets_coverage_witness :
    generateDatetimeRange ⟨2021, 1, 1, 0, 0, 0, 0⟩
        ⟨2021, 1, 3, 0, 0, 0, 0⟩ .day ≠ [] ∧
    (generateDatetimeRange ⟨2021, 1, 1, 0, 0, 0, 0⟩
        ⟨2021, 1, 3, 0, 0, 0, 0⟩ .day).head? =
      some ⟨2021, 1, 1, 0, 0, 0, 0⟩ ∧
    List.Chain' (fun a b => lexLtB a b = true)
      (generateDatetimeRange ⟨2021, 1, 1, 0, 0, 0, 0⟩
        ⟨2021, 1, 3, 0, 0, 0, 0⟩ .day) ∧
    ∃ z, (generateDatetimeRange ⟨2021, 1, 1, 0, 0, 0, 0⟩
        ⟨2021, 1, 3, 0, 0, 0, 0⟩ .day).getLast? = some z ∧
      lexLeB z ⟨2021, 1, 3, 0, 0, 0, 0⟩ = true ∧
      lexLeB (addOne .day z) ⟨2021, 1, 3, 0, 0, 0, 0⟩ = false :=
  c1_generate_buckets_coverage ⟨2021, 1, 1, 0, 0, 0, 0⟩
    ⟨2021, 1, 3, 0, 0, 0, 0⟩ .day (by decide) (by decide) (by decide)


/-! ## Theorems about the aggregation executor -/

theorem digitChar_ne_plus (n : Nat) : digitChar n ≠ '+' := by
  unfold digitChar
  split <;> decide

theorem plus_ne_digitChar (n : Nat) : ('+' = digitChar n) = False :=
  eq_false (fun h => digitChar_ne_plus n h.symm)

theorem splitCharAux_of_not_mem (sep : Char) (l : List Char) :
    ∀ acc, sep ∉ l → splitCharAux sep l acc = [acc.reverse ++ l] := by
  induction l with
  | nil => intro acc _; simp [splitCharAux]
  | cons c rest ih =>
    intro acc h
    have hc : ¬(c = sep) := fun he => h (by simp [he])
    show (if c = sep then _ else _) = _
    rw [if_neg hc, ih (c :: acc) (fun hm => h (List.mem_cons_of_mem _ hm))]
    simp

theorem isoChars_no_plus (dt : DateTime) : '+' ∉ isoChars dt := by
  unfold isoChars pad4 pad2 pad6
  intro h
  by_cases hm : dt.microsecond = 0 <;>
    simp [hm, plus_ne_digitChar] at h

/-- The placeholder label is exactly the isoformat rendering: a naive
datetime's isoformat contains no timezone suffix, so splitting on `+`
returns the whole string. -/
theorem placeholderLabel_eq_isoformat (dt : DateTime) :
    placeholderLabel dt = pyIsoformat dt := by
  unfold placeholderLabel pySplitChar
  rw [show (pyIsoformat dt).data = isoChars dt from rfl,
    splitCharAux_of_not_mem '+' (isoChars dt) [] (isoChars_no_plus dt)]
  simp [pyIsoformat]

theorem groupedQuery_length (rows : List Row) (cols : List String)
    (aggF : List ℚ → Option ℚ) (u : TimeUnit) (lo hi : DateTime) :
    (groupedQuery rows cols aggF u lo hi).length =
      numGroups rows u lo hi := by
  unfold groupedQuery numGroups
  simp

theorem windowRecs_length (rows : List Row) (cols : List String)
    (aggF : List ℚ → Option ℚ) (u : TimeUnit) (lo hi : DateTime) :
    (windowRecs rows cols aggF u lo hi).length =
      max 1 (numGroups rows u lo hi) := by
  show (if (groupedQuery rows cols aggF u lo hi).isEmpty = true
      then [Rec.placeholder (placeholderLabel lo) 0]
      else groupedQuery rows cols aggF u lo hi).length = _
  split_ifs with h
  · have h2 : (groupedQuery rows cols aggF u lo hi).length = 0 := by
      rw [List.isEmpty_iff] at h
      simp [h]
    rw [groupedQuery_length] at h2
    simp [h2]
  · have h2 : (groupedQuery rows cols aggF u lo hi).length ≠ 0 := by
      simp only [List.isEmpty_iff] at h
      simpa [List.length_eq_zero] using h
    rw [groupedQuery_length] at h2 ⊢
    omega

theorem applyAggregates_length (rows : List Row) (cols : List String)
    (aggF : List ℚ → Option ℚ) (u : TimeUnit) (dts : List DateTime) :
    (applyAggregates rows cols aggF u dts).length =
      ((dts.zip dts.tail).map
        (fun w => max 1 (numGroups rows u w.1 w.2))).sum := by
  unfold applyAggregates
  rw [List.length_flatten, List.map_map]
  congr 1
  apply List.map_congr_left
  intro w _
  exact windowRecs_length rows cols aggF u w.1 w.2

theorem windowRecs_of_empty_window (rows : List Row)
    (cols : List String) (aggF : List ℚ → Option ℚ) (u : TimeUnit)
    (lo hi : DateTime) (h : ∀ r ∈ rows, inWindowB lo hi r.dt = false) :
    windowRecs rows cols aggF u lo hi =
      [Rec.placeholder (pyIsoformat lo) 0] := by
  have hfilter : rows.filter (fun r => inWindowB lo hi r.dt) = [] := by
    rw [List.filter_eq_nil_iff]
    intro r hr
    simp [h r hr]
  unfold windowRecs groupedQuery
  simp [hfilter, firstDedup, firstDedupAux,
    placeholderLabel_eq_isoformat]

/-- C2 (counterexample): a month-granularity aggregation starting
mid-month (the start's day is not zeroed, as day cannot be set to 0)
produces a window `[2021-01-15, 2021-02-15)` spanning two
`date_trunc('month', ...)` classes; with one row in each class the
grouped query returns two rows for that single window, so the output
has 2 records while the boundary count minus one is 1 — a window can
contribute more than one record. -/
theorem c2_two_records_one_window_counterexample :
    (formatAggregates
      (applyAggregates
        [⟨⟨2021, 1, 20, 0, 0, 0, 0⟩, [("temperature", some 5)]⟩,
         ⟨⟨2021, 2, 10, 0, 0, 0, 0⟩, [("temperature", some 7)]⟩]
        ["temperature"] (fun _ => none) .month
        (generateDatetimeRange
          (zeroOutDatetime ⟨2021, 1, 15, 0, 0, 0, 0⟩ .month)
          ⟨2021, 2, 20, 0, 0, 0, 0⟩ .month)) "avg").length = 2 ∧
    (generateDatetimeRange
      (zeroOutDatetime ⟨2021, 1, 15, 0, 0, 0, 0⟩ .month)
      ⟨2021, 2, 20, 0, 0, 0, 0⟩ .month).length - 1 = 1 := by
  constructor
  · decide
  · decide

/-- C2 (amended): the aggregation output has one formatted object per
aggregate record, and the record count is the sum over bucket windows
of `max 1 (number of distinct truncation classes among the window's
rows)`: a window with no rows contributes exactly one zero-count
placeholder labelled with the bucket's left edge rendered without
timezone suffix and carrying no statistic fields, every window
contributes at least one record, but a window whose rows span several
truncation classes (possible for month/year granularity, whose starts
are not fully zeroed) contributes one record per class rather than
exactly one. -/
theorem c2_record_count_per_window (rows : List Row)
    (cols : List String) (aggF : List ℚ → Option ℚ) (u : TimeUnit)
    (dts : List DateTime) (aggLabel : String) :
    (formatAggregates (applyAggregates rows cols aggF u dts)
        aggLabel).length =
      ((dts.zip dts.tail).map
        (fun w => max 1 (numGroups rows u w.1 w.2))).sum ∧
    (∀ lo hi : DateTime, (∀ r ∈ rows, inWindowB lo hi r.dt = false) →
      windowRecs rows cols aggF u lo hi =
        [Rec.placeholder (pyIsoformat lo) 0]) ∧
    ∀ w ∈ dts.zip dts.tail,
      1 ≤ (windowRecs rows cols aggF u w.1 w.2).length := by
  refine ⟨?_, ?_, ?_⟩
  · show (List.map _ _).length = _
    rw [List.length_map]
    exact applyAggregates_length rows cols aggF u dts
  · exact fun lo hi h => windowRecs_of_empty_window rows cols aggF u lo hi h
  · intro w _
    rw [windowRecs_length]
    omega

/-- C2 (witness): the amended theorem at the counterexample's data, plus
the empty-window placeholder at a window with no rows. -/
theorem c2_record_count_per_window_witness :
    (formatAggregates
      (applyAggregates
        [⟨⟨2021, 1, 20, 0, 0, 0, 0⟩, [("temperature", some 5)]⟩]
        ["temperature"] (fun _ => none) .hour
        [⟨1900, 1, 1, 0, 0, 0, 0⟩, ⟨1900, 1, 1, 1, 0, 0, 0⟩])
        "avg").length =
      (([⟨1900, 1, 1, 0, 0, 0, 0⟩,
          (⟨1900, 1, 1, 1, 0, 0, 0⟩ : DateTime)].zip
        [⟨1900, 1, 1, 1, 0, 0, 0⟩]).map
        (fun w => max 1
          (numGroups [⟨⟨2021, 1, 20, 0, 0, 0, 0⟩,
            [("temperature", some 5)]⟩] .hour w.1 w.2))).sum ∧
    windowRecs [⟨⟨2021, 1, 20, 0, 0, 0, 0⟩, [("temperature", some 5)]⟩]
        ["temperature"] (fun _ => none) .hour
        ⟨1900, 1, 1, 0, 0, 0, 0⟩ ⟨1900, 1, 1, 1, 0, 0, 0⟩ =
      [Rec.placeholder (pyIsoformat ⟨1900, 1, 1, 0, 0, 0, 0⟩) 0] :=
  ⟨(c2_record_count_per_window
      [⟨⟨2021, 1, 20, 0, 0, 0, 0⟩, [("temperature", some 5)]⟩]
      ["temperature"] (fun _ => none) .hour
      [⟨1900, 1, 1, 0, 0, 0, 0⟩, ⟨1900, 1, 1, 1, 0, 0, 0⟩] "avg").1,
   (c2_record_count_per_window
      [⟨⟨2021, 1, 20, 0, 0, 0, 0⟩, [("temperature", some 5)]⟩]
      ["temperature"] (fun _ => none) .hour
      [⟨1900, 1, 1, 0, 0, 0, 0⟩, ⟨1900, 1, 1, 1, 0, 0, 0⟩] "avg").2.1
     ⟨1900, 1, 1, 0, 0, 0, 0⟩ ⟨1900, 1, 1, 1, 0, 0, 0⟩ (by decide)⟩

/-! ## Theorems about column eligibility and the aggregate entry point -/

theorem vcProp_skip (tfp : List (String × Option (List String)))
    (cols : List String) (val : String)
    (h : lookupTFP tfp ((pySplitChar '.' val).headD "") = none) :
    vcProp tfp cols val = cols := by
  unfold vcProp
  simp only [h]

theorem foldl_vcProp_eq (tfp : List (String × Option (List String)))
    (props : List String) :
    ∀ cols,
      (∀ v ∈ props,
        lookupTFP tfp ((pySplitChar '.' v).headD "") = none) →
      props.foldl (vcProp tfp) cols = cols := by
  induction props with
  | nil => intro cols _; rfl
  | cons v rest ih =>
    intro cols h
    rw [List.foldl_cons, vcProp_skip tfp cols v (h v (by simp))]
    exact ih cols (fun v2 hv2 => h v2 (by simp [hv2]))

theorem foldl_vcSensor_eq (ts : Option (List String))
    (tfp : List (String × Option (List String)))
    (sensors : List Sensor) :
    ∀ cols,
      (∀ s ∈ sensors, sensorPasses ts s = true →
        ∀ v ∈ s.observedProperties,
          lookupTFP tfp ((pySplitChar '.' v).headD "") = none) →
      sensors.foldl (vcSensor ts tfp) cols = cols := by
  induction sensors with
  | nil => intro cols _; rfl
  | cons s rest ih =>
    intro cols h
    rw [List.foldl_cons]
    have hs : vcSensor ts tfp cols s = cols := by
      unfold vcSensor
      split_ifs with hp
      · exact foldl_vcProp_eq tfp _ cols (h s (by simp) hp)
      · rfl
    rw [hs]
    exact ih cols (fun s2 hs2 => h s2 (by simp [hs2]))

/-- C9: when no sensor attached to the node (and passing the sensor
filter) declares an observed-property mapping into any requested
feature, `_valid_columns` returns the empty set, and `aggregate` then
raises the contradictory-filters error before touching the observation
table, whatever its contents. -/
theorem c9_contradictory_filters (node : NodeRec) (feature : String)
    (sensors : Option String)
    (hnomap : ∀ s ∈ node.sensors,
      sensorPasses (pySensorFilter sensors) s = true →
      ∀ v ∈ s.observedProperties,
        lookupTFP (buildTFP (pySplitChar ',' feature))
          ((pySplitChar '.' v).headD "") = none) :
    validColumns node (pySensorFilter sensors)
      (buildTFP (pySplitChar ',' feature)) = [] ∧
    ∀ (tableCols : List Col) (rows : List Row)
      (startDt endDt : DateTime) (aggUnit : TimeUnit)
      (aggLabel : String) (aggF : List ℚ → Option ℚ),
      aggregateModel node tableCols rows feature startDt endDt sensors
        aggUnit aggLabel aggF = .error contradictoryMsg := by
  have h1 : validColumns node (pySensorFilter sensors)
      (buildTFP (pySplitChar ',' feature)) = [] :=
    foldl_vcSensor_eq (pySensorFilter sensors)
      (buildTFP (pySplitChar ',' feature)) node.sensors [] hnomap
  refine ⟨h1, ?_⟩
  intro tableCols rows startDt endDt aggUnit aggLabel aggF
  unfold aggregateModel
  simp [h1]

/-- C9 (witness): a node whose single sensor maps only into
`magnetic_field`, queried for the feature `temperature`. -/
theorem c9_contradictory_filters_witness :
    validColumns ⟨"n1", [⟨"s1", ["magnetic_field.x"]⟩]⟩
      (pySensorFilter none) (buildTFP (pySplitChar ',' "temperature")) =
      [] ∧
    aggregateModel ⟨"n1", [⟨"s1", ["magnetic_field.x"]⟩]⟩ [] []
      "temperature" ⟨2021, 1, 1, 0, 0, 0, 0⟩ ⟨2021, 1, 2, 0, 0, 0, 0⟩
      none .hour "avg" (fun _ => none) = .error contradictoryMsg :=
  ⟨(c9_contradictory_filters ⟨"n1", [⟨"s1", ["magnetic_field.x"]⟩]⟩
      "temperature" none (by decide)).1,
   (c9_contradictory_filters ⟨"n1", [⟨"s1", ["magnetic_field.x"]⟩]⟩
      "temperature" none (by decide)).2 [] []
     ⟨2021, 1, 1, 0, 0, 0, 0⟩ ⟨2021, 1, 2, 0, 0, 0, 0⟩ .hour "avg"
     (fun _ => none)⟩

end Plenario
